import Mathlib

/-!
Verification development for the rapier island-solver slice
(`src/dynamics/solver/island_solver.rs` and
`src/dynamics/solver/velocity_constraint.rs`), on the scalar 3D path
(`dim3` feature, no `simd-is-enabled`, not `target_arch = "wasm32"`).
Real numbers are modelled by `ℚ` (exact arithmetic), fixed-size source
arrays by lists of their populated prefix, and panics by `Except`/`Option`
failure values.
-/

set_option linter.unusedVariables false

/-- 3D vector over `ℚ` (the `Vector<Real>` / `AngVector<Real>` of the source). -/
structure Vec3 where
  x : ℚ
  y : ℚ
  z : ℚ
deriving DecidableEq, Repr

def Vec3.zero : Vec3 := ⟨0, 0, 0⟩

def Vec3.add (a b : Vec3) : Vec3 := ⟨a.x + b.x, a.y + b.y, a.z + b.z⟩

def Vec3.sub (a b : Vec3) : Vec3 := ⟨a.x - b.x, a.y - b.y, a.z - b.z⟩

def Vec3.neg (a : Vec3) : Vec3 := ⟨-a.x, -a.y, -a.z⟩

/-- Scalar multiple `v * s` (vector-times-scalar, as written in the source). -/
def Vec3.smul (v : Vec3) (s : ℚ) : Vec3 := ⟨v.x * s, v.y * s, v.z * s⟩

/-- Dot product (`dot` / `gdot` of the source). -/
def Vec3.dot (a b : Vec3) : ℚ := a.x * b.x + a.y * b.y + a.z * b.z

/-- Cross product (`gcross` of the source in 3D). -/
def Vec3.cross (a b : Vec3) : Vec3 :=
  ⟨a.y * b.z - a.z * b.y, a.z * b.x - a.x * b.z, a.x * b.y - a.y * b.x⟩

instance : Add Vec3 := ⟨Vec3.add⟩

instance : Sub Vec3 := ⟨Vec3.sub⟩

/-- Modelled from the spec: the square-root inverse world inertia `Iw½`
(`effective_world_inv_inertia_sqrt`, an `SdpMatrix3` defined outside this
slice) is a symmetric operator on angular vectors, stored by its six upper
entries; `transformVector` applies it. -/
structure SdpMatrix3 where
  m11 : ℚ
  m12 : ℚ
  m13 : ℚ
  m22 : ℚ
  m23 : ℚ
  m33 : ℚ
deriving DecidableEq, Repr

def SdpMatrix3.transformVector (m : SdpMatrix3) (v : Vec3) : Vec3 :=
  ⟨m.m11 * v.x + m.m12 * v.y + m.m13 * v.z,
   m.m12 * v.x + m.m22 * v.y + m.m23 * v.z,
   m.m13 * v.x + m.m23 * v.y + m.m33 * v.z⟩

/-- Modelled from the spec: the per-body velocity-delta accumulator
(`DeltaVel`, defined outside this slice): a pair of linear and angular
components. -/
structure DeltaVel where
  linear : Vec3
  angular : Vec3
deriving DecidableEq, Repr

def DeltaVel.zero : DeltaVel := ⟨Vec3.zero, Vec3.zero⟩

/-- The scalar `simd_clamp` of simba used at velocity_constraint.rs:358:
clamp below by `lo` first, then above by `hi`. -/
def sclamp (v lo hi : ℚ) : ℚ := min (max v lo) hi

/-- Rust slice assignment `l[i] = f(l[i])`; an out-of-range index leaves the
list unchanged (the source would panic there, which no claim exercises). -/
def listModify {α : Type} : List α → ℕ → (α → α) → List α
  | [], _, _ => []
  | a :: l, 0, f => f a :: l
  | a :: l, i + 1, f => a :: listModify l i f

/-- Modelled from the spec: the integration parameters consumed by this slice
(`dt`, `inv_dt()`, `velocity_based_erp_inv_dt()`, `warmstart_coeff`,
`velocity_solve_fraction`); the two derived quantities are taken as given
values since their defining methods are outside this slice. -/
structure IntegrationParameters where
  dt : ℚ
  inv_dt : ℚ
  velocity_based_erp_inv_dt : ℚ
  warmstart_coeff : ℚ
  velocity_solve_fraction : ℚ
deriving DecidableEq, Repr

/-- Modelled from the spec: the rigid-body view consumed by the solver —
inverse mass, square-root inverse world inertia, velocities, world center of
mass, and the body's slot in the island's active set. -/
structure RigidBody where
  linvel : Vec3
  angvel : Vec3
  world_com : Vec3
  effective_inv_mass : ℚ
  effective_world_inv_inertia_sqrt : SdpMatrix3
  active_set_offset : ℕ
deriving DecidableEq, Repr

/-- Cached impulse side-channel of a contact (`data.impulse` and
`data.tangent_impulse`; the latter is `[Real; 2]` in 3D, modelled as a pair). -/
structure ContactData where
  impulse : ℚ
  tangent_impulse : ℚ × ℚ
deriving DecidableEq, Repr

/-- One entry of `manifold.data.solver_contacts`. -/
structure SolverContact where
  point : Vec3
  dist : ℚ
  friction : ℚ
  restitution : ℚ
  tangent_velocity : Vec3
  is_bouncy : Bool
  contact_id : ℕ
  data : ContactData
deriving DecidableEq, Repr

/-- Modelled from the spec: one entry of `manifold.points` — geometric fields
plus the `data` side-channel; only the `data` impulse fields are touched by
this slice. -/
structure ContactPoint where
  local_p1 : Vec3
  local_p2 : Vec3
  dist : ℚ
  data : ContactData
deriving DecidableEq, Repr

structure BodyPair where
  body1 : ℕ
  body2 : ℕ
deriving DecidableEq, Repr

/-- The `data` part of a contact manifold read by the solver. -/
structure ContactManifoldData where
  body_pair : BodyPair
  normal : Vec3
  relative_dominance : ℤ
  solver_contacts : List SolverContact
  warmstart_multiplier : ℚ
  constraint_index : ℕ
deriving DecidableEq, Repr

structure ContactManifold where
  points : List ContactPoint
  data : ContactManifoldData
deriving DecidableEq, Repr

/-- `MAX_MANIFOLD_POINTS` from `crate::math` (4 in this build). -/
def MAX_MANIFOLD_POINTS : ℕ := 4

/-- One sub-constraint of a contact element (velocity_constraint.rs:81-87). -/
structure VelocityConstraintElementPart where
  gcross1 : Vec3
  gcross2 : Vec3
  rhs : ℚ
  impulse : ℚ
  r : ℚ
deriving DecidableEq, Repr

/-- `VelocityConstraintElementPart::zero` (velocity_constraint.rs:91-99). -/
def VelocityConstraintElementPart.zero : VelocityConstraintElementPart :=
  ⟨Vec3.zero, Vec3.zero, 0, 0, 0⟩

/-- One constraint element: a normal part and `DIM - 1 = 2` tangent parts
(the fixed 2-array is modelled as a pair). -/
structure VelocityConstraintElement where
  normal_part : VelocityConstraintElementPart
  tangent_part : VelocityConstraintElementPart × VelocityConstraintElementPart
deriving DecidableEq, Repr

/-- Indexed access `tangent_part[j]` into the source's 2-element array. -/
def VelocityConstraintElement.tangentAt (e : VelocityConstraintElement)
    (j : Fin 2) : VelocityConstraintElementPart :=
  if j = 0 then e.tangent_part.1 else e.tangent_part.2

/-- `VelocityConstraintElement::zero` (velocity_constraint.rs:110-115). -/
def VelocityConstraintElement.zero : VelocityConstraintElement :=
  ⟨VelocityConstraintElementPart.zero,
   (VelocityConstraintElementPart.zero, VelocityConstraintElementPart.zero)⟩

/-- `VelocityConstraint` (velocity_constraint.rs:119-130).  The fixed
`elements` array of size `MAX_MANIFOLD_POINTS` is modelled by the list of its
populated prefix (`generate` fills exactly `num_contacts` entries), and the
zero-initialised `manifold_contact_id` array by a list read back with
default `0`. -/
structure VelocityConstraint where
  dir1 : Vec3
  im1 : ℚ
  im2 : ℚ
  limit : ℚ
  mj_lambda1 : ℕ
  mj_lambda2 : ℕ
  manifold_id : ℕ
  manifold_contact_id : List ℕ
  elements : List VelocityConstraintElement
deriving DecidableEq, Repr

/-- The `num_contacts` field; `generate` always sets it to the number of
populated elements, which the list model keeps as the list length. -/
def VelocityConstraint.num_contacts (c : VelocityConstraint) : ℕ :=
  c.elements.length

/-- Modelled from the spec: the ground-anchored constraint variant
(`VelocityGroundConstraint`) is outside this slice; only its place in the
sum type matters here. -/
inductive VelocityGroundConstraint where
  | mk : VelocityGroundConstraint
deriving DecidableEq, Repr

/-- `AnyVelocityConstraint` (velocity_constraint.rs:13-22) on the scalar
path: the two `simd-is-enabled` variants are compiled out. -/
inductive AnyVelocityConstraint where
  | NongroupedGround : VelocityGroundConstraint → AnyVelocityConstraint
  | Nongrouped : VelocityConstraint → AnyVelocityConstraint
  | Empty : AnyVelocityConstraint
deriving DecidableEq, Repr

/-- The panics `VelocityConstraint::generate` can hit: the
`assert_eq!(manifold.data.relative_dominance, 0)` at line 147, the
`bodies[...]` indexing at lines 152-153, and the out-of-range indexed store
`out_constraints[manifold.data.constraint_index + _l]` at line 304 on the
`push = false` arm. -/
inductive GenerateError where
  | dominanceAssertion : GenerateError
  | bodyIndexOutOfRange : GenerateError
  | constraintIndexOutOfRange : GenerateError
deriving DecidableEq, Repr

/-- Per-tangent sub-part assembly: the body of the `for j` loop of
`VelocityConstraint::generate` (velocity_constraint.rs:270-296); the seeded
impulse (cached tangent impulse times warm-start coefficient) is passed in. -/
def genTangentPart (rb1 rb2 : RigidBody) (dp1 dp2 vel1 vel2 : Vec3)
    (p : SolverContact) (tj : Vec3) (impulse : ℚ) :
    VelocityConstraintElementPart :=
  let gcross1 := rb1.effective_world_inv_inertia_sqrt.transformVector (dp1.cross tj)
  let gcross2 := rb2.effective_world_inv_inertia_sqrt.transformVector (dp2.cross tj.neg)
  let r := 1 / (rb1.effective_inv_mass + rb2.effective_inv_mass
      + gcross1.dot gcross1 + gcross2.dot gcross2)
  let rhs := (vel1 - vel2 + p.tangent_velocity).dot tj
  ⟨gcross1, gcross2, rhs, impulse, r⟩

/-- Per-contact element assembly: the body of the `for k` loop of
`VelocityConstraint::generate` (velocity_constraint.rs:222-298).  The
orthonormal-basis routine of `crate::utils` is outside this slice and is
taken as the `basis` parameter. -/
def genElement (params : IntegrationParameters) (rb1 rb2 : RigidBody)
    (force_dir1 : Vec3) (warmstart_coeff : ℚ) (basis : Vec3 → Vec3 × Vec3)
    (p : SolverContact) : VelocityConstraintElement :=
  let dp1 := p.point - rb1.world_com
  let dp2 := p.point - rb2.world_com
  let vel1 := rb1.linvel + rb1.angvel.cross dp1
  let vel2 := rb2.linvel + rb2.angvel.cross dp2
  let gcross1 := rb1.effective_world_inv_inertia_sqrt.transformVector (dp1.cross force_dir1)
  let gcross2 := rb2.effective_world_inv_inertia_sqrt.transformVector (dp2.cross force_dir1.neg)
  let r := 1 / (rb1.effective_inv_mass + rb2.effective_inv_mass
      + gcross1.dot gcross1 + gcross2.dot gcross2)
  let is_bouncy : ℚ := if p.is_bouncy then 1 else 0
  let is_resting := 1 - is_bouncy
  let rhs0 := (1 + is_bouncy * p.restitution) * (vel1 - vel2).dot force_dir1
  let rhs1 := rhs0 + max p.dist 0 * params.inv_dt
  let rhs2 := rhs1 * (is_bouncy + is_resting * params.velocity_solve_fraction)
  let rhs3 := rhs2 + is_resting * params.velocity_based_erp_inv_dt * min p.dist 0
  let tangents1 := basis force_dir1
  { normal_part := ⟨gcross1, gcross2, rhs3, p.data.impulse * warmstart_coeff, r⟩
    tangent_part :=
      (genTangentPart rb1 rb2 dp1 dp2 vel1 vel2 p tangents1.1
        (p.data.tangent_impulse.1 * warmstart_coeff),
       genTangentPart rb1 rb2 dp1 dp2 vel1 vel2 p tangents1.2
        (p.data.tangent_impulse.2 * warmstart_coeff)) }

/-- One constraint per chunk of at most `MAX_MANIFOLD_POINTS` solver contacts
(velocity_constraint.rs:166-298).  `limit` starts at `0.0` and is overwritten
once per contact in iteration order (modelled by the fold), and
`manifold_contact_id[k]` is written once per contact. -/
def genConstraintChunk (params : IntegrationParameters) (manifold_id : ℕ)
    (rb1 rb2 : RigidBody) (force_dir1 : Vec3) (warmstart_coeff : ℚ)
    (basis : Vec3 → Vec3 × Vec3) (manifold_points : List SolverContact) :
    VelocityConstraint :=
  { dir1 := force_dir1
    im1 := rb1.effective_inv_mass
    im2 := rb2.effective_inv_mass
    limit := manifold_points.foldl (fun _ p => p.friction) 0
    mj_lambda1 := rb1.active_set_offset
    mj_lambda2 := rb2.active_set_offset
    manifold_id := manifold_id
    manifold_contact_id := manifold_points.map (fun p => p.contact_id)
    elements := manifold_points.map (genElement params rb1 rb2 force_dir1 warmstart_coeff basis) }

/-- `slice::chunks(MAX_MANIFOLD_POINTS)` with `MAX_MANIFOLD_POINTS = 4`:
split a list into consecutive chunks of four, the last chunk possibly
shorter but never empty. -/
def chunks4 {α : Type} : List α → List (List α)
  | [] => []
  | [a] => [[a]]
  | [a, b] => [[a, b]]
  | [a, b, c] => [[a, b, c]]
  | a :: b :: c :: d :: rest => [a, b, c, d] :: chunks4 rest

/-- Write the freshly generated constraints at indices `constraint_index`,
`constraint_index + 1`, ... (the `push = false` arm,
velocity_constraint.rs:303-306).  Each Rust store
`out_constraints[i] = c` panics when `i` is out of range, modelled as
`none`. -/
def writeAt : List AnyVelocityConstraint → ℕ → List AnyVelocityConstraint →
    Option (List AnyVelocityConstraint)
  | out, _, [] => some out
  | out, i, c :: rest =>
    if i < out.length then writeAt (out.set i c) (i + 1) rest else none

/-- Embedding of `VelocityConstraint::generate`
(velocity_constraint.rs:139-308, scalar non-wasm path).  Panics are modelled
by `Except.error`: the dominance assertion, the `bodies[...]` indexing, and
the indexed store of the `push = false` arm. -/
def VelocityConstraint.generate (basis : Vec3 → Vec3 × Vec3)
    (params : IntegrationParameters) (manifold_id : ℕ)
    (manifold : ContactManifold) (bodies : List RigidBody)
    (out_constraints : List AnyVelocityConstraint) (push : Bool) :
    Except GenerateError (List AnyVelocityConstraint) :=
  if manifold.data.relative_dominance = 0 then
    match bodies[manifold.data.body_pair.body1]?, bodies[manifold.data.body_pair.body2]? with
    | some rb1, some rb2 =>
      let force_dir1 := manifold.data.normal.neg
      let warmstart_coeff := manifold.data.warmstart_multiplier * params.warmstart_coeff
      let news := (chunks4 manifold.data.solver_contacts).map fun pts =>
        AnyVelocityConstraint.Nongrouped
          (genConstraintChunk params manifold_id rb1 rb2 force_dir1 warmstart_coeff basis pts)
      if push then Except.ok (out_constraints ++ news)
      else
        match writeAt out_constraints manifold.data.constraint_index news with
        | some res => Except.ok res
        | none => Except.error GenerateError.constraintIndexOutOfRange
    | _, _ => Except.error GenerateError.bodyIndexOutOfRange
  else Except.error GenerateError.dominanceAssertion

/-- Embedding of `VelocityConstraint::num_active_constraints`
(velocity_constraint.rs:133-137). -/
def VelocityConstraint.num_active_constraints (manifold : ContactManifold) : ℕ :=
  manifold.data.solver_contacts.length / MAX_MANIFOLD_POINTS +
    (if manifold.data.solver_contacts.length % MAX_MANIFOLD_POINTS ≠ 0 then 1 else 0)

/-- One element-part's warm-start contribution along direction `dirv`: the
shared shape of the normal and tangent accumulation
(velocity_constraint.rs:316-331). -/
def warmstartPart (dirv : Vec3) (im1 im2 : ℚ)
    (p : VelocityConstraintElementPart) (l1 l2 : DeltaVel) :
    DeltaVel × DeltaVel :=
  (⟨l1.linear + dirv.smul (im1 * p.impulse), l1.angular + p.gcross1.smul p.impulse⟩,
   ⟨l2.linear + dirv.smul (-im2 * p.impulse), l2.angular + p.gcross2.smul p.impulse⟩)

/-- The accumulation loop of `VelocityConstraint::warmstart`
(velocity_constraint.rs:314-333): normal part, then tangents `j = 0, 1`. -/
def warmstartLoop (dir1 t0 t1 : Vec3) (im1 im2 : ℚ) :
    List VelocityConstraintElement → DeltaVel → DeltaVel → DeltaVel × DeltaVel
  | [], l1, l2 => (l1, l2)
  | e :: rest, l1, l2 =>
    let s1 := warmstartPart dir1 im1 im2 e.normal_part l1 l2
    let s2 := warmstartPart t0 im1 im2 (e.tangentAt 0) s1.1 s1.2
    let s3 := warmstartPart t1 im1 im2 (e.tangentAt 1) s2.1 s2.2
    warmstartLoop dir1 t0 t1 im1 im2 rest s3.1 s3.2

/-- Embedding of `VelocityConstraint::warmstart`
(velocity_constraint.rs:310-339): accumulate into two local `DeltaVel`s
starting from zero, then add both into the shared buffer. -/
def VelocityConstraint.warmstart (basis : Vec3 → Vec3 × Vec3)
    (c : VelocityConstraint) (mj_lambdas : List DeltaVel) : List DeltaVel :=
  let t := basis c.dir1
  let s := warmstartLoop c.dir1 t.1 t.2 c.im1 c.im2 c.elements DeltaVel.zero DeltaVel.zero
  let m1 := listModify mj_lambdas c.mj_lambda1 fun d =>
    ⟨d.linear + s.1.linear, d.angular + s.1.angular⟩
  listModify m1 c.mj_lambda2 fun d =>
    ⟨d.linear + s.2.linear, d.angular + s.2.angular⟩

/-- One tangent sub-constraint update (velocity_constraint.rs:349-367): the
trial impulse is clamped to `[-limit * nimp, +limit * nimp]` where `nimp` is
the current accumulated normal impulse of the same contact. -/
def solveTangentUpdate (im1 im2 limit : ℚ) (tj : Vec3) (nimp : ℚ)
    (elt : VelocityConstraintElementPart) (l1 l2 : DeltaVel) :
    VelocityConstraintElementPart × DeltaVel × DeltaVel :=
  let dimpulse := tj.dot l1.linear + elt.gcross1.dot l1.angular
      - tj.dot l2.linear + elt.gcross2.dot l2.angular + elt.rhs
  let limitk := limit * nimp
  let new_impulse := sclamp (elt.impulse - elt.r * dimpulse) (-limitk) limitk
  let dlambda := new_impulse - elt.impulse
  ({ elt with impulse := new_impulse },
   ⟨l1.linear + tj.smul (im1 * dlambda), l1.angular + elt.gcross1.smul dlambda⟩,
   ⟨l2.linear + tj.smul (-im2 * dlambda), l2.angular + elt.gcross2.smul dlambda⟩)

/-- Friction update of one element: the two tangent parts in order
`j = 0, 1`, both clamped against the element's current normal impulse. -/
def frictionElement (im1 im2 limit : ℚ) (t0 t1 : Vec3)
    (e : VelocityConstraintElement) (l1 l2 : DeltaVel) :
    VelocityConstraintElement × DeltaVel × DeltaVel :=
  let s0 := solveTangentUpdate im1 im2 limit t0 e.normal_part.impulse (e.tangentAt 0) l1 l2
  let s1 := solveTangentUpdate im1 im2 limit t1 e.normal_part.impulse (e.tangentAt 1) s0.2.1 s0.2.2
  ({ e with tangent_part := (s0.1, s1.1) }, s1.2.1, s1.2.2)

/-- The `Solve friction.` loop of `VelocityConstraint::solve`
(velocity_constraint.rs:346-368). -/
def frictionLoop (im1 im2 limit : ℚ) (t0 t1 : Vec3) :
    List VelocityConstraintElement → DeltaVel → DeltaVel →
    List VelocityConstraintElement × DeltaVel × DeltaVel
  | [], l1, l2 => ([], l1, l2)
  | e :: rest, l1, l2 =>
    let s := frictionElement im1 im2 limit t0 t1 e l1 l2
    let srest := frictionLoop im1 im2 limit t0 t1 rest s.2.1 s.2.2
    (s.1 :: srest.1, srest.2)

/-- One non-penetration update (velocity_constraint.rs:371-386): the trial
impulse is projected onto `[0, ∞)`. -/
def solveNormalUpdate (dir1 : Vec3) (im1 im2 : ℚ)
    (elt : VelocityConstraintElementPart) (l1 l2 : DeltaVel) :
    VelocityConstraintElementPart × DeltaVel × DeltaVel :=
  let dimpulse := dir1.dot l1.linear + elt.gcross1.dot l1.angular
      - dir1.dot l2.linear + elt.gcross2.dot l2.angular + elt.rhs
  let new_impulse := max (elt.impulse - elt.r * dimpulse) 0
  let dlambda := new_impulse - elt.impulse
  ({ elt with impulse := new_impulse },
   ⟨l1.linear + dir1.smul (im1 * dlambda), l1.angular + elt.gcross1.smul dlambda⟩,
   ⟨l2.linear + dir1.smul (-im2 * dlambda), l2.angular + elt.gcross2.smul dlambda⟩)

/-- The `Solve non-penetration.` loop of `VelocityConstraint::solve`
(velocity_constraint.rs:370-386). -/
def normalLoop (dir1 : Vec3) (im1 im2 : ℚ) :
    List VelocityConstraintElement → DeltaVel → DeltaVel →
    List VelocityConstraintElement × DeltaVel × DeltaVel
  | [], l1, l2 => ([], l1, l2)
  | e :: rest, l1, l2 =>
    let s := solveNormalUpdate dir1 im1 im2 e.normal_part l1 l2
    let srest := normalLoop dir1 im1 im2 rest s.2.1 s.2.2
    ({ e with normal_part := s.1 } :: srest.1, srest.2)

/-- Embedding of `VelocityConstraint::solve` (velocity_constraint.rs:341-390):
read both local delta-velocities, run the friction loop then the
non-penetration loop, write both locals back (the second write wins when the
two slots alias, as in the source). -/
def VelocityConstraint.solve (basis : Vec3 → Vec3 × Vec3)
    (c : VelocityConstraint) (mj_lambdas : List DeltaVel) :
    VelocityConstraint × List DeltaVel :=
  let l1 := mj_lambdas.getD c.mj_lambda1 DeltaVel.zero
  let l2 := mj_lambdas.getD c.mj_lambda2 DeltaVel.zero
  let t := basis c.dir1
  let f := frictionLoop c.im1 c.im2 c.limit t.1 t.2 c.elements l1 l2
  let n := normalLoop c.dir1 c.im1 c.im2 f.1 f.2.1 f.2.2
  ({ c with elements := n.1 },
   (mj_lambdas.set c.mj_lambda1 n.2.1).set c.mj_lambda2 n.2.2)

/-- Store one element's final impulses into a manifold point
(velocity_constraint.rs:397-409): `data.impulse` gets the normal impulse and
`data.tangent_impulse` the pair of tangent impulses; no other field moves. -/
def applyImpulse (e : VelocityConstraintElement) (p : ContactPoint) :
    ContactPoint :=
  { p with data := { impulse := e.normal_part.impulse,
                     tangent_impulse := ((e.tangentAt 0).impulse, (e.tangentAt 1).impulse) } }

/-- The `for k` loop of `VelocityConstraint::writeback_impulses`
(velocity_constraint.rs:395-410), iterating over `(contact_id, element)`
pairs in order. -/
def writebackLoop : List (ℕ × VelocityConstraintElement) → List ContactPoint →
    List ContactPoint
  | [], pts => pts
  | (cid, e) :: rest, pts => writebackLoop rest (listModify pts cid (applyImpulse e))

/-- The contact ids the writeback loop consults: entry `k` of the
`manifold_contact_id` array for each `k < num_contacts` (the source array is
zero-initialised, hence the `0` default). -/
def VelocityConstraint.listedIds (c : VelocityConstraint) : List ℕ :=
  (List.range c.num_contacts).map fun k => c.manifold_contact_id.getD k 0

/-- Embedding of `VelocityConstraint::writeback_impulses`
(velocity_constraint.rs:392-411). -/
def VelocityConstraint.writeback_impulses (c : VelocityConstraint)
    (manifolds_all : List ContactManifold) : List ContactManifold :=
  listModify manifolds_all c.manifold_id fun m =>
    { m with points := writebackLoop (c.listedIds.zip c.elements) m.points }

/-- Embedding of `AnyVelocityConstraint::warmstart`
(velocity_constraint.rs:43-53).  The `Empty` arm is `unreachable!()` in the
source, modelled as `none`; the ground variant is outside this slice and
modelled from the spec as completing without effect on this slice's state. -/
def AnyVelocityConstraint.warmstart (basis : Vec3 → Vec3 × Vec3)
    (a : AnyVelocityConstraint) (mj_lambdas : List DeltaVel) :
    Option (List DeltaVel) :=
  match a with
  | .NongroupedGround _ => some mj_lambdas
  | .Nongrouped c => some (c.warmstart basis mj_lambdas)
  | .Empty => none

/-- Embedding of `AnyVelocityConstraint::solve`
(velocity_constraint.rs:55-65); `Empty` is the `unreachable!()` panic. -/
def AnyVelocityConstraint.solve (basis : Vec3 → Vec3 × Vec3)
    (a : AnyVelocityConstraint) (mj_lambdas : List DeltaVel) :
    Option (AnyVelocityConstraint × List DeltaVel) :=
  match a with
  | .NongroupedGround g => some (.NongroupedGround g, mj_lambdas)
  | .Nongrouped c =>
    some (.Nongrouped (c.solve basis mj_lambdas).1, (c.solve basis mj_lambdas).2)
  | .Empty => none

/-- Embedding of `AnyVelocityConstraint::writeback_impulses`
(velocity_constraint.rs:67-77); `Empty` is the `unreachable!()` panic. -/
def AnyVelocityConstraint.writeback_impulses (a : AnyVelocityConstraint)
    (manifolds_all : List ContactManifold) : Option (List ContactManifold) :=
  match a with
  | .NongroupedGround _ => some manifolds_all
  | .Nongrouped c => some (c.writeback_impulses manifolds_all)
  | .Empty => none

/-- Island-solver state: the active bodies of the island, the manifold and
joint slices, and the two constraint storages.  Joints and the storages have
parameter types since `JointGraphEdge` and `SolverConstraints` are outside
this slice. -/
structure IslandState (J SC SJ : Type) where
  bodies : List RigidBody
  manifolds : List ContactManifold
  joints : List J
  contact_constraints : SC
  joint_constraints : SJ
deriving DecidableEq, Repr

/-- Embedding of `IslandSolver::solve_island` (island_solver.rs:27-84).  The
collaborators outside this slice — `RigidBody::integrate`,
`SolverConstraints::init` for contacts and for joints,
`VelocitySolver::solve` and `PositionSolver::solve` — are taken as
parameters; `foreach_active_island_body_mut_internal` visits each active
body once, modelled as a map over the island's body list; the timing
counters are pure bookkeeping and are not modelled. -/
def solve_island {J SC SJ : Type}
    (integrate : ℚ → RigidBody → RigidBody)
    (contactInit : IntegrationParameters → List RigidBody → List ContactManifold → List ℕ → SC)
    (jointInit : IntegrationParameters → List RigidBody → List J → List ℕ → SJ)
    (velocitySolve : IntegrationParameters → List RigidBody → List ContactManifold → List J →
      SC → SJ → List RigidBody × List ContactManifold × List J × SC × SJ)
    (positionSolve : IntegrationParameters → List RigidBody → SC → SJ → List RigidBody)
    (params : IntegrationParameters) (st : IslandState J SC SJ)
    (manifold_indices joint_indices : List ℕ) : IslandState J SC SJ :=
  if manifold_indices.length ≠ 0 ∨ joint_indices.length ≠ 0 then
    let cc := contactInit params st.bodies st.manifolds manifold_indices
    let jc := jointInit params st.bodies st.joints joint_indices
    let bodies1 := st.bodies.map (integrate params.dt)
    let v := velocitySolve params bodies1 st.manifolds st.joints cc jc
    { bodies := positionSolve params v.1 v.2.2.2.1 v.2.2.2.2
      manifolds := v.2.1
      joints := v.2.2.1
      contact_constraints := v.2.2.2.1
      joint_constraints := v.2.2.2.2 }
  else
    { st with bodies := st.bodies.map (integrate params.dt) }

/-- Shared concrete fixture: integration parameters (integer-valued so that
kernel evaluation never has to normalise a fraction). -/
def params0 : IntegrationParameters := ⟨1, 60, 8, 1, 1⟩

/-- Shared concrete fixture: identity inertia operator. -/
def idInertia : SdpMatrix3 := ⟨1, 0, 0, 1, 0, 1⟩

/-- Shared concrete fixture: first body. -/
def rbA : RigidBody := ⟨⟨1, 0, 0⟩, Vec3.zero, Vec3.zero, 1, idInertia, 0⟩

/-- Shared concrete fixture: second body. -/
def rbB : RigidBody := ⟨⟨-1, 0, 0⟩, Vec3.zero, ⟨2, 0, 0⟩, 1, idInertia, 1⟩

/-- Shared concrete fixture: a tangent-basis function. -/
def basis0 : Vec3 → Vec3 × Vec3 := fun _ => (⟨0, 1, 0⟩, ⟨0, 0, 1⟩)

/-- Shared concrete fixture: one solver contact with cached impulses. -/
def sc0 : SolverContact := ⟨⟨1, 0, 0⟩, 0, 1, 1, Vec3.zero, true, 0, ⟨2, (1, 3)⟩⟩

/-- Shared concrete fixture: a one-contact manifold between bodies 0 and 1. -/
def manifold0 : ContactManifold :=
  { points := [⟨Vec3.zero, Vec3.zero, 0, ⟨0, (0, 0)⟩⟩]
    data := ⟨⟨0, 1⟩, ⟨1, 0, 0⟩, 0, [sc0], 1, 0⟩ }

/-- Shared concrete fixture: the islands' bodies. -/
def bodies0 : List RigidBody := [rbA, rbB]

/-- Shared concrete fixture: `manifold0` with non-zero relative dominance. -/
def manifoldDom : ContactManifold :=
  { manifold0 with data := { manifold0.data with relative_dominance := 1 } }

/-- C1: for an island with empty `manifold_indices` and `joint_indices`,
`solve_island` takes the fast path: each active body is replaced by
`integrate(params.dt)` of itself and nothing else — manifolds, joints and
both constraint storages — is mutated; no assembly, velocity solve or
position solve runs (the result does not depend on those phase functions). -/
theorem solve_island_no_constraints_integrates_only {J SC SJ : Type}
    (integrate : ℚ → RigidBody → RigidBody)
    (contactInit : IntegrationParameters → List RigidBody → List ContactManifold → List ℕ → SC)
    (jointInit : IntegrationParameters → List RigidBody → List J → List ℕ → SJ)
    (velocitySolve : IntegrationParameters → List RigidBody → List ContactManifold → List J →
      SC → SJ → List RigidBody × List ContactManifold × List J × SC × SJ)
    (positionSolve : IntegrationParameters → List RigidBody → SC → SJ → List RigidBody)
    (params : IntegrationParameters) (st : IslandState J SC SJ)
    (manifold_indices joint_indices : List ℕ)
    (hm : manifold_indices = []) (hj : joint_indices = []) :
    solve_island integrate contactInit jointInit velocitySolve positionSolve params st
        manifold_indices joint_indices
      = { st with bodies := st.bodies.map (integrate params.dt) } := by
  subst hm
  subst hj
  simp [solve_island]

/-- Witness for C1: a concrete two-body island with no manifolds and no
joints; `solve_island` only integrates the bodies. -/
theorem solve_island_no_constraints_integrates_only_witness :
    @solve_island Unit Unit Unit
        (fun dt rb => { rb with world_com := rb.world_com + rb.linvel.smul dt })
        (fun _ _ _ _ => ()) (fun _ _ _ _ => ())
        (fun _ b m j sc sj => (b, m, j, sc, sj)) (fun _ b _ _ => b)
        params0 ⟨bodies0, [], [], (), ()⟩ [] []
      = { (⟨bodies0, [], [], (), ()⟩ : IslandState Unit Unit Unit) with
          bodies := bodies0.map
            ((fun dt rb => { rb with world_com := rb.world_com + rb.linvel.smul dt }) params0.dt) } :=
  solve_island_no_constraints_integrates_only _ _ _ _ _ _ _ _ _ rfl rfl

theorem sclamp_bounds (x L : ℚ) (hL : 0 ≤ L) :
    -L ≤ sclamp x (-L) L ∧ sclamp x (-L) L ≤ L :=
  ⟨le_min (le_max_right x (-L)) (neg_le_self hL), min_le_right _ _⟩

theorem solveTangentUpdate_impulse (im1 im2 limit : ℚ) (tj : Vec3) (nimp : ℚ)
    (elt : VelocityConstraintElementPart) (l1 l2 : DeltaVel) :
    (solveTangentUpdate im1 im2 limit tj nimp elt l1 l2).1.impulse
      = sclamp (elt.impulse - elt.r * (tj.dot l1.linear + elt.gcross1.dot l1.angular
            - tj.dot l2.linear + elt.gcross2.dot l2.angular + elt.rhs))
          (-(limit * nimp)) (limit * nimp) := rfl

theorem frictionElement_normal (im1 im2 limit : ℚ) (t0 t1 : Vec3)
    (e : VelocityConstraintElement) (l1 l2 : DeltaVel) :
    (frictionElement im1 im2 limit t0 t1 e l1 l2).1.normal_part = e.normal_part := rfl

theorem frictionElement_tangentAt_zero (im1 im2 limit : ℚ) (t0 t1 : Vec3)
    (e : VelocityConstraintElement) (l1 l2 : DeltaVel) :
    (frictionElement im1 im2 limit t0 t1 e l1 l2).1.tangentAt 0
      = (solveTangentUpdate im1 im2 limit t0 e.normal_part.impulse (e.tangentAt 0) l1 l2).1 := rfl

theorem frictionElement_tangentAt_one (im1 im2 limit : ℚ) (t0 t1 : Vec3)
    (e : VelocityConstraintElement) (l1 l2 : DeltaVel) :
    (frictionElement im1 im2 limit t0 t1 e l1 l2).1.tangentAt 1
      = (solveTangentUpdate im1 im2 limit t1 e.normal_part.impulse (e.tangentAt 1)
          (solveTangentUpdate im1 im2 limit t0 e.normal_part.impulse (e.tangentAt 0) l1 l2).2.1
          (solveTangentUpdate im1 im2 limit t0 e.normal_part.impulse (e.tangentAt 0) l1 l2).2.2).1 := rfl

theorem frictionLoop_length (im1 im2 limit : ℚ) (t0 t1 : Vec3)
    (els : List VelocityConstraintElement) (l1 l2 : DeltaVel) :
    (frictionLoop im1 im2 limit t0 t1 els l1 l2).1.length = els.length := by
  induction els generalizing l1 l2 with
  | nil => rfl
  | cons e rest ih => simp [frictionLoop, ih]

/-- Loop decomposition: the friction update of contact `i` runs on the
delta-velocities produced by the friction updates of contacts `0, ..., i-1`
(and on nothing else). -/
theorem frictionLoop_getD (im1 im2 limit : ℚ) (t0 t1 : Vec3)
    (els : List VelocityConstraintElement) (l1 l2 : DeltaVel)
    (i : ℕ) (hi : i < els.length) :
    (frictionLoop im1 im2 limit t0 t1 els l1 l2).1.getD i VelocityConstraintElement.zero
      = (frictionElement im1 im2 limit t0 t1 (els.getD i VelocityConstraintElement.zero)
          (frictionLoop im1 im2 limit t0 t1 (els.take i) l1 l2).2.1
          (frictionLoop im1 im2 limit t0 t1 (els.take i) l1 l2).2.2).1 := by
  induction els generalizing l1 l2 i with
  | nil => simp at hi
  | cons e rest ih =>
    cases i with
    | zero => simp [frictionLoop]
    | succ n =>
      have hn : n < rest.length := by simpa using hi
      simp only [frictionLoop, List.getD_cons_succ, List.take_succ_cons]
      exact ih _ _ n hn

theorem normalLoop_length (dir1 : Vec3) (im1 im2 : ℚ)
    (els : List VelocityConstraintElement) (l1 l2 : DeltaVel) :
    (normalLoop dir1 im1 im2 els l1 l2).1.length = els.length := by
  induction els generalizing l1 l2 with
  | nil => rfl
  | cons e rest ih => simp [normalLoop, ih]

/-- Loop decomposition for the non-penetration loop: contact `i` is updated
on the delta-velocities produced by contacts `0, ..., i-1`, and only the
normal part moves. -/
theorem normalLoop_getD (dir1 : Vec3) (im1 im2 : ℚ)
    (els : List VelocityConstraintElement) (l1 l2 : DeltaVel)
    (i : ℕ) (hi : i < els.length) :
    (normalLoop dir1 im1 im2 els l1 l2).1.getD i VelocityConstraintElement.zero
      = ⟨(solveNormalUpdate dir1 im1 im2
            (els.getD i VelocityConstraintElement.zero).normal_part
            (normalLoop dir1 im1 im2 (els.take i) l1 l2).2.1
            (normalLoop dir1 im1 im2 (els.take i) l1 l2).2.2).1,
          (els.getD i VelocityConstraintElement.zero).tangent_part⟩ := by
  induction els generalizing l1 l2 i with
  | nil => simp at hi
  | cons e rest ih =>
    cases i with
    | zero => simp [normalLoop]
    | succ n =>
      have hn : n < rest.length := by simpa using hi
      simp only [normalLoop, List.getD_cons_succ, List.take_succ_cons]
      exact ih _ _ n hn

theorem solveNormalUpdate_impulse_nonneg (dir1 : Vec3) (im1 im2 : ℚ)
    (elt : VelocityConstraintElementPart) (l1 l2 : DeltaVel) :
    0 ≤ (solveNormalUpdate dir1 im1 im2 elt l1 l2).1.impulse :=
  le_max_right _ 0

theorem solve_elements_eq (basis : Vec3 → Vec3 × Vec3)
    (c : VelocityConstraint) (mjl : List DeltaVel) :
    (c.solve basis mjl).1.elements
      = (normalLoop c.dir1 c.im1 c.im2
          (frictionLoop c.im1 c.im2 c.limit (basis c.dir1).1 (basis c.dir1).2 c.elements
            (mjl.getD c.mj_lambda1 DeltaVel.zero) (mjl.getD c.mj_lambda2 DeltaVel.zero)).1
          (frictionLoop c.im1 c.im2 c.limit (basis c.dir1).1 (basis c.dir1).2 c.elements
            (mjl.getD c.mj_lambda1 DeltaVel.zero) (mjl.getD c.mj_lambda2 DeltaVel.zero)).2.1
          (frictionLoop c.im1 c.im2 c.limit (basis c.dir1).1 (basis c.dir1).2 c.elements
            (mjl.getD c.mj_lambda1 DeltaVel.zero) (mjl.getD c.mj_lambda2 DeltaVel.zero)).2.2).1 := rfl

/-- Projection helpers: building an element from an explicit constructor and
reading a tangent slot. -/
theorem tangentAt_mk (np : VelocityConstraintElementPart)
    (tp : VelocityConstraintElementPart × VelocityConstraintElementPart) (j : Fin 2) :
    (VelocityConstraintElement.mk np tp).tangentAt j = if j = 0 then tp.1 else tp.2 := rfl

theorem frictionElement_tangent_pair (im1 im2 limit : ℚ) (t0 t1 : Vec3)
    (e : VelocityConstraintElement) (l1 l2 : DeltaVel) :
    (frictionElement im1 im2 limit t0 t1 e l1 l2).1.tangent_part
      = ((solveTangentUpdate im1 im2 limit t0 e.normal_part.impulse (e.tangentAt 0) l1 l2).1,
         (solveTangentUpdate im1 im2 limit t1 e.normal_part.impulse (e.tangentAt 1)
           (solveTangentUpdate im1 im2 limit t0 e.normal_part.impulse (e.tangentAt 0) l1 l2).2.1
           (solveTangentUpdate im1 im2 limit t0 e.normal_part.impulse (e.tangentAt 0) l1 l2).2.2).1) := rfl

/-- Shared concrete fixture: a one-contact constraint with friction limit `1`
and non-negative seeded normal impulse. -/
def wcon : VelocityConstraint :=
  { dir1 := ⟨0, 0, 1⟩, im1 := 1, im2 := 1, limit := 1, mj_lambda1 := 0, mj_lambda2 := 1,
    manifold_id := 0, manifold_contact_id := [0],
    elements := [⟨⟨⟨0, 1, 0⟩, ⟨1, 0, 0⟩, 3, 2, 1⟩,
      (⟨⟨0, 0, 1⟩, Vec3.zero, 0, 1, 1⟩, ⟨Vec3.zero, Vec3.zero, 0, 0, 1⟩)⟩] }

/-- Shared concrete fixture: a two-body delta-velocity buffer. -/
def wmjl : List DeltaVel := [⟨⟨1, 0, 0⟩, Vec3.zero⟩, ⟨⟨-1, 0, 0⟩, Vec3.zero⟩]

/-- Concrete fixture for the C2 counterexample: seeded normal impulse `1` is
non-negative, but the friction limit field is negative (`-1`). -/
def cexConstraint : VelocityConstraint :=
  { dir1 := ⟨0, 0, 1⟩, im1 := 0, im2 := 0, limit := -1, mj_lambda1 := 0, mj_lambda2 := 0,
    manifold_id := 0, manifold_contact_id := [0],
    elements := [⟨⟨Vec3.zero, Vec3.zero, 0, 1, 1⟩,
      (⟨Vec3.zero, Vec3.zero, 0, 0, 1⟩, ⟨Vec3.zero, Vec3.zero, 0, 0, 1⟩)⟩] }

/-- C2 counterexample: the claim as stated fails when the constraint's
friction coefficient `limit` is negative.  Here the normal impulses are
seeded non-negative (the claim's only hypothesis) and the normal impulse of
the contact that was current when the tangent clamp ran is `1`, yet after
`solve` the first tangent impulse does not lie in
`[-limit·impulseₙ, +limit·impulseₙ] = [1, -1]`, an empty interval no value
can satisfy. -/
theorem velocity_solve_impulse_cone_counterexample :
    (∀ e ∈ cexConstraint.elements, 0 ≤ e.normal_part.impulse) ∧
    ¬ (-(cexConstraint.limit *
          ((cexConstraint.elements.getD 0 VelocityConstraintElement.zero).normal_part.impulse))
          ≤ (((cexConstraint.solve basis0 [DeltaVel.zero]).1.elements.getD 0
              VelocityConstraintElement.zero).tangentAt 0).impulse ∧
        (((cexConstraint.solve basis0 [DeltaVel.zero]).1.elements.getD 0
            VelocityConstraintElement.zero).tangentAt 0).impulse
          ≤ cexConstraint.limit *
            ((cexConstraint.elements.getD 0 VelocityConstraintElement.zero).normal_part.impulse)) := by
  constructor
  · decide
  · norm_num [cexConstraint, basis0, VelocityConstraint.solve, frictionLoop, frictionElement,
      solveTangentUpdate, normalLoop, solveNormalUpdate, sclamp,
      VelocityConstraintElement.tangentAt, VelocityConstraintElement.zero,
      VelocityConstraintElementPart.zero, Vec3.dot, Vec3.smul, Vec3.add, Vec3.zero,
      DeltaVel.zero, min_def, max_def]

/-- C2 (amended: additionally require the constraint's friction limit to be
non-negative, as every physical friction coefficient is): for every velocity
constraint whose element impulses are seeded non-negative on the normal
parts and whose `limit` is non-negative, after `VelocityConstraint::solve`
each contact's accumulated normal impulse is `≥ 0`, and each tangent impulse
lies in `[-limit·impulseₙ, +limit·impulseₙ]` where `impulseₙ` is the normal
impulse of the same contact that was current when the tangent clamp ran (the
input one: friction runs before any normal update). -/
theorem velocity_solve_impulse_cone (basis : Vec3 → Vec3 × Vec3)
    (c : VelocityConstraint) (mjl : List DeltaVel)
    (hseed : ∀ e ∈ c.elements, 0 ≤ e.normal_part.impulse) (hlimit : 0 ≤ c.limit)
    (i : ℕ) (hi : i < c.num_contacts) (j : Fin 2) :
    0 ≤ (((c.solve basis mjl).1.elements.getD i
        VelocityConstraintElement.zero).normal_part.impulse) ∧
    -(c.limit * ((c.elements.getD i VelocityConstraintElement.zero).normal_part.impulse))
        ≤ (((c.solve basis mjl).1.elements.getD i
            VelocityConstraintElement.zero).tangentAt j).impulse ∧
    (((c.solve basis mjl).1.elements.getD i
        VelocityConstraintElement.zero).tangentAt j).impulse
        ≤ c.limit * ((c.elements.getD i VelocityConstraintElement.zero).normal_part.impulse) := by
  have hiL : i < c.elements.length := hi
  have hmem : c.elements.getD i VelocityConstraintElement.zero ∈ c.elements := by
    rw [List.getD_eq_getElem _ _ hiL]
    exact List.getElem_mem hiL
  have hL : 0 ≤ c.limit * ((c.elements.getD i VelocityConstraintElement.zero).normal_part.impulse) :=
    mul_nonneg hlimit (hseed _ hmem)
  have hiF : i < (frictionLoop c.im1 c.im2 c.limit (basis c.dir1).1 (basis c.dir1).2 c.elements
      (mjl.getD c.mj_lambda1 DeltaVel.zero) (mjl.getD c.mj_lambda2 DeltaVel.zero)).1.length := by
    rw [frictionLoop_length]
    exact hiL
  rw [solve_elements_eq basis c mjl, normalLoop_getD _ _ _ _ _ _ i hiF,
    frictionLoop_getD _ _ _ _ _ _ _ _ i hiL]
  refine ⟨le_max_right _ 0, ?_⟩
  rw [tangentAt_mk, frictionElement_tangent_pair]
  fin_cases j
  · rw [if_pos (by decide), solveTangentUpdate_impulse]
    exact sclamp_bounds _ _ hL
  · rw [if_neg (by decide), solveTangentUpdate_impulse]
    exact sclamp_bounds _ _ hL

/-- Witness for the amended C2 at a concrete seeded constraint. -/
theorem velocity_solve_impulse_cone_witness :
    0 ≤ (((wcon.solve basis0 wmjl).1.elements.getD 0
        VelocityConstraintElement.zero).normal_part.impulse) ∧
    -(wcon.limit * ((wcon.elements.getD 0 VelocityConstraintElement.zero).normal_part.impulse))
        ≤ (((wcon.solve basis0 wmjl).1.elements.getD 0
            VelocityConstraintElement.zero).tangentAt 0).impulse ∧
    (((wcon.solve basis0 wmjl).1.elements.getD 0
        VelocityConstraintElement.zero).tangentAt 0).impulse
        ≤ wcon.limit * ((wcon.elements.getD 0 VelocityConstraintElement.zero).normal_part.impulse) :=
  velocity_solve_impulse_cone basis0 wcon wmjl (by decide) (by decide) 0 (by decide) 0

/-- Abbreviation: the pair of local delta-velocities read by
`VelocityConstraint::solve` (velocity_constraint.rs:342-343). -/
def solveLocals (c : VelocityConstraint) (mjl : List DeltaVel) :
    DeltaVel × DeltaVel :=
  (mjl.getD c.mj_lambda1 DeltaVel.zero, mjl.getD c.mj_lambda2 DeltaVel.zero)

/-- Abbreviation: the friction loop of `solve` run on the first `i` contacts
only. -/
def frictionUpTo (basis : Vec3 → Vec3 × Vec3) (c : VelocityConstraint)
    (mjl : List DeltaVel) (i : ℕ) :
    List VelocityConstraintElement × DeltaVel × DeltaVel :=
  frictionLoop c.im1 c.im2 c.limit (basis c.dir1).1 (basis c.dir1).2 (c.elements.take i)
    (solveLocals c mjl).1 (solveLocals c mjl).2

/-- Abbreviation: the full friction pass of `solve`. -/
def frictionFull (basis : Vec3 → Vec3 × Vec3) (c : VelocityConstraint)
    (mjl : List DeltaVel) :
    List VelocityConstraintElement × DeltaVel × DeltaVel :=
  frictionLoop c.im1 c.im2 c.limit (basis c.dir1).1 (basis c.dir1).2 c.elements
    (solveLocals c mjl).1 (solveLocals c mjl).2

/-- C4: in every call to `VelocityConstraint::solve`, all friction updates
run on the local delta-velocities before any non-penetration update (the
solve result is the normal loop applied to the friction pass's output); the
friction pass never modifies a normal part, so each contact's tangent trial
impulses are clamped to `[-limit_k, +limit_k]` with
`limit_k = self.limit * (accumulated normal impulse of the same contact
current at clamp time)`, which is the input normal impulse; contact `i`'s
update runs on the delta-velocities produced by contacts `0, ..., i-1`, and
tangent `j = 1` on those left by tangent `j = 0`. -/
theorem velocity_solve_friction_before_normal (basis : Vec3 → Vec3 × Vec3)
    (c : VelocityConstraint) (mjl : List DeltaVel) (i : ℕ) (hi : i < c.num_contacts) :
    (c.solve basis mjl).1.elements
        = (normalLoop c.dir1 c.im1 c.im2 (frictionFull basis c mjl).1
            (frictionFull basis c mjl).2.1 (frictionFull basis c mjl).2.2).1 ∧
    ((frictionFull basis c mjl).1.getD i VelocityConstraintElement.zero).normal_part
        = (c.elements.getD i VelocityConstraintElement.zero).normal_part ∧
    (frictionFull basis c mjl).1.getD i VelocityConstraintElement.zero
        = (frictionElement c.im1 c.im2 c.limit (basis c.dir1).1 (basis c.dir1).2
            (c.elements.getD i VelocityConstraintElement.zero)
            (frictionUpTo basis c mjl i).2.1 (frictionUpTo basis c mjl i).2.2).1 ∧
    (((frictionFull basis c mjl).1.getD i VelocityConstraintElement.zero).tangentAt 0).impulse
        = sclamp
            (((c.elements.getD i VelocityConstraintElement.zero).tangentAt 0).impulse
              - ((c.elements.getD i VelocityConstraintElement.zero).tangentAt 0).r
                * ((basis c.dir1).1.dot (frictionUpTo basis c mjl i).2.1.linear
                  + ((c.elements.getD i VelocityConstraintElement.zero).tangentAt 0).gcross1.dot
                      (frictionUpTo basis c mjl i).2.1.angular
                  - (basis c.dir1).1.dot (frictionUpTo basis c mjl i).2.2.linear
                  + ((c.elements.getD i VelocityConstraintElement.zero).tangentAt 0).gcross2.dot
                      (frictionUpTo basis c mjl i).2.2.angular
                  + ((c.elements.getD i VelocityConstraintElement.zero).tangentAt 0).rhs))
            (-(c.limit * ((c.elements.getD i VelocityConstraintElement.zero).normal_part.impulse)))
            (c.limit * ((c.elements.getD i VelocityConstraintElement.zero).normal_part.impulse)) ∧
    (((frictionFull basis c mjl).1.getD i VelocityConstraintElement.zero).tangentAt 1).impulse
        = sclamp
            (((c.elements.getD i VelocityConstraintElement.zero).tangentAt 1).impulse
              - ((c.elements.getD i VelocityConstraintElement.zero).tangentAt 1).r
                * ((basis c.dir1).2.dot
                      (solveTangentUpdate c.im1 c.im2 c.limit (basis c.dir1).1
                        ((c.elements.getD i VelocityConstraintElement.zero).normal_part.impulse)
                        ((c.elements.getD i VelocityConstraintElement.zero).tangentAt 0)
                        (frictionUpTo basis c mjl i).2.1 (frictionUpTo basis c mjl i).2.2).2.1.linear
                  + ((c.elements.getD i VelocityConstraintElement.zero).tangentAt 1).gcross1.dot
                      (solveTangentUpdate c.im1 c.im2 c.limit (basis c.dir1).1
                        ((c.elements.getD i VelocityConstraintElement.zero).normal_part.impulse)
                        ((c.elements.getD i VelocityConstraintElement.zero).tangentAt 0)
                        (frictionUpTo basis c mjl i).2.1 (frictionUpTo basis c mjl i).2.2).2.1.angular
                  - (basis c.dir1).2.dot
                      (solveTangentUpdate c.im1 c.im2 c.limit (basis c.dir1).1
                        ((c.elements.getD i VelocityConstraintElement.zero).normal_part.impulse)
                        ((c.elements.getD i VelocityConstraintElement.zero).tangentAt 0)
                        (frictionUpTo basis c mjl i).2.1 (frictionUpTo basis c mjl i).2.2).2.2.linear
                  + ((c.elements.getD i VelocityConstraintElement.zero).tangentAt 1).gcross2.dot
                      (solveTangentUpdate c.im1 c.im2 c.limit (basis c.dir1).1
                        ((c.elements.getD i VelocityConstraintElement.zero).normal_part.impulse)
                        ((c.elements.getD i VelocityConstraintElement.zero).tangentAt 0)
                        (frictionUpTo basis c mjl i).2.1 (frictionUpTo basis c mjl i).2.2).2.2.angular
                  + ((c.elements.getD i VelocityConstraintElement.zero).tangentAt 1).rhs))
            (-(c.limit * ((c.elements.getD i VelocityConstraintElement.zero).normal_part.impulse)))
            (c.limit * ((c.elements.getD i VelocityConstraintElement.zero).normal_part.impulse)) := by
  have hiL : i < c.elements.length := hi
  refine ⟨rfl, ?_, ?_, ?_, ?_⟩
  · simp only [frictionFull, solveLocals]
    rw [frictionLoop_getD _ _ _ _ _ _ _ _ i hiL, frictionElement_normal]
  · simp only [frictionFull, frictionUpTo, solveLocals]
    rw [frictionLoop_getD _ _ _ _ _ _ _ _ i hiL]
  · simp only [frictionFull, frictionUpTo, solveLocals]
    rw [frictionLoop_getD _ _ _ _ _ _ _ _ i hiL, frictionElement_tangentAt_zero,
      solveTangentUpdate_impulse]
  · simp only [frictionFull, frictionUpTo, solveLocals]
    rw [frictionLoop_getD _ _ _ _ _ _ _ _ i hiL, frictionElement_tangentAt_one,
      solveTangentUpdate_impulse]

/-- Witness for C4 at a concrete one-contact constraint. -/
theorem velocity_solve_friction_before_normal_witness :
    (wcon.solve basis0 wmjl).1.elements
        = (normalLoop wcon.dir1 wcon.im1 wcon.im2 (frictionFull basis0 wcon wmjl).1
            (frictionFull basis0 wcon wmjl).2.1 (frictionFull basis0 wcon wmjl).2.2).1 ∧
    ((frictionFull basis0 wcon wmjl).1.getD 0 VelocityConstraintElement.zero).normal_part
        = (wcon.elements.getD 0 VelocityConstraintElement.zero).normal_part ∧
    (frictionFull basis0 wcon wmjl).1.getD 0 VelocityConstraintElement.zero
        = (frictionElement wcon.im1 wcon.im2 wcon.limit (basis0 wcon.dir1).1 (basis0 wcon.dir1).2
            (wcon.elements.getD 0 VelocityConstraintElement.zero)
            (frictionUpTo basis0 wcon wmjl 0).2.1 (frictionUpTo basis0 wcon wmjl 0).2.2).1 ∧
    (((frictionFull basis0 wcon wmjl).1.getD 0 VelocityConstraintElement.zero).tangentAt 0).impulse
        = sclamp
            (((wcon.elements.getD 0 VelocityConstraintElement.zero).tangentAt 0).impulse
              - ((wcon.elements.getD 0 VelocityConstraintElement.zero).tangentAt 0).r
                * ((basis0 wcon.dir1).1.dot (frictionUpTo basis0 wcon wmjl 0).2.1.linear
                  + ((wcon.elements.getD 0 VelocityConstraintElement.zero).tangentAt 0).gcross1.dot
                      (frictionUpTo basis0 wcon wmjl 0).2.1.angular
                  - (basis0 wcon.dir1).1.dot (frictionUpTo basis0 wcon wmjl 0).2.2.linear
                  + ((wcon.elements.getD 0 VelocityConstraintElement.zero).tangentAt 0).gcross2.dot
                      (frictionUpTo basis0 wcon wmjl 0).2.2.angular
                  + ((wcon.elements.getD 0 VelocityConstraintElement.zero).tangentAt 0).rhs))
            (-(wcon.limit * ((wcon.elements.getD 0 VelocityConstraintElement.zero).normal_part.impulse)))
            (wcon.limit * ((wcon.elements.getD 0 VelocityConstraintElement.zero).normal_part.impulse)) ∧
    (((frictionFull basis0 wcon wmjl).1.getD 0 VelocityConstraintElement.zero).tangentAt 1).impulse
        = sclamp
            (((wcon.elements.getD 0 VelocityConstraintElement.zero).tangentAt 1).impulse
              - ((wcon.elements.getD 0 VelocityConstraintElement.zero).tangentAt 1).r
                * ((basis0 wcon.dir1).2.dot
                      (solveTangentUpdate wcon.im1 wcon.im2 wcon.limit (basis0 wcon.dir1).1
                        ((wcon.elements.getD 0 VelocityConstraintElement.zero).normal_part.impulse)
                        ((wcon.elements.getD 0 VelocityConstraintElement.zero).tangentAt 0)
                        (frictionUpTo basis0 wcon wmjl 0).2.1 (frictionUpTo basis0 wcon wmjl 0).2.2).2.1.linear
                  + ((wcon.elements.getD 0 VelocityConstraintElement.zero).tangentAt 1).gcross1.dot
                      (solveTangentUpdate wcon.im1 wcon.im2 wcon.limit (basis0 wcon.dir1).1
                        ((wcon.elements.getD 0 VelocityConstraintElement.zero).normal_part.impulse)
                        ((wcon.elements.getD 0 VelocityConstraintElement.zero).tangentAt 0)
                        (frictionUpTo basis0 wcon wmjl 0).2.1 (frictionUpTo basis0 wcon wmjl 0).2.2).2.1.angular
                  - (basis0 wcon.dir1).2.dot
                      (solveTangentUpdate wcon.im1 wcon.im2 wcon.limit (basis0 wcon.dir1).1
                        ((wcon.elements.getD 0 VelocityConstraintElement.zero).normal_part.impulse)
                        ((wcon.elements.getD 0 VelocityConstraintElement.zero).tangentAt 0)
                        (frictionUpTo basis0 wcon wmjl 0).2.1 (frictionUpTo basis0 wcon wmjl 0).2.2).2.2.linear
                  + ((wcon.elements.getD 0 VelocityConstraintElement.zero).tangentAt 1).gcross2.dot
                      (solveTangentUpdate wcon.im1 wcon.im2 wcon.limit (basis0 wcon.dir1).1
                        ((wcon.elements.getD 0 VelocityConstraintElement.zero).normal_part.impulse)
                        ((wcon.elements.getD 0 VelocityConstraintElement.zero).tangentAt 0)
                        (frictionUpTo basis0 wcon wmjl 0).2.1 (frictionUpTo basis0 wcon wmjl 0).2.2).2.2.angular
                  + ((wcon.elements.getD 0 VelocityConstraintElement.zero).tangentAt 1).rhs))
            (-(wcon.limit * ((wcon.elements.getD 0 VelocityConstraintElement.zero).normal_part.impulse)))
            (wcon.limit * ((wcon.elements.getD 0 VelocityConstraintElement.zero).normal_part.impulse)) :=
  velocity_solve_friction_before_normal basis0 wcon wmjl 0 (by decide)

/-- Helper: on the `push = true` path with zero relative dominance and valid
body indices, `generate` appends one `Nongrouped` constraint per chunk of
solver contacts. -/
theorem generate_push_eq (basis : Vec3 → Vec3 × Vec3)
    (params : IntegrationParameters) (manifold_id : ℕ) (m : ContactManifold)
    (bodies : List RigidBody) (out : List AnyVelocityConstraint)
    (rb1 rb2 : RigidBody)
    (hd : m.data.relative_dominance = 0)
    (h1 : bodies[m.data.body_pair.body1]? = some rb1)
    (h2 : bodies[m.data.body_pair.body2]? = some rb2) :
    VelocityConstraint.generate basis params manifold_id m bodies out true
      = Except.ok (out ++ (chunks4 m.data.solver_contacts).map fun pts =>
          AnyVelocityConstraint.Nongrouped
            (genConstraintChunk params manifold_id rb1 rb2 m.data.normal.neg
              (m.data.warmstart_multiplier * params.warmstart_coeff) basis pts)) := by
  simp [VelocityConstraint.generate, hd, h1, h2]

/-- C3: for every manifold contact point processed by
`VelocityConstraint::generate`, the normal right-hand side equals the
four-step formula of the claim, with `b = 1` iff the contact is bouncy,
`velᵢ = linvelᵢ + angvelᵢ × (point − world_comᵢ)` and
`dir1 = −manifold.normal`. -/
theorem generate_normal_rhs (basis : Vec3 → Vec3 × Vec3)
    (params : IntegrationParameters) (manifold_id : ℕ) (m : ContactManifold)
    (bodies : List RigidBody) (out : List AnyVelocityConstraint)
    (rb1 rb2 : RigidBody) (pts : List SolverContact) (k : ℕ)
    (p : SolverContact) (e : VelocityConstraintElement)
    (hd : m.data.relative_dominance = 0)
    (h1 : bodies[m.data.body_pair.body1]? = some rb1)
    (h2 : bodies[m.data.body_pair.body2]? = some rb2)
    (hc : pts ∈ chunks4 m.data.solver_contacts)
    (hp : pts.get? k = some p)
    (he : (genConstraintChunk params manifold_id rb1 rb2 m.data.normal.neg
        (m.data.warmstart_multiplier * params.warmstart_coeff) basis pts).elements.get? k
        = some e) :
    VelocityConstraint.generate basis params manifold_id m bodies out true
      = Except.ok (out ++ (chunks4 m.data.solver_contacts).map fun pts' =>
          AnyVelocityConstraint.Nongrouped
            (genConstraintChunk params manifold_id rb1 rb2 m.data.normal.neg
              (m.data.warmstart_multiplier * params.warmstart_coeff) basis pts')) ∧
    e.normal_part.rhs
      = ((1 + (if p.is_bouncy then (1 : ℚ) else 0) * p.restitution)
            * ((rb1.linvel + rb1.angvel.cross (p.point - rb1.world_com))
                - (rb2.linvel + rb2.angvel.cross (p.point - rb2.world_com))).dot
              m.data.normal.neg
          + max p.dist 0 * params.inv_dt)
        * ((if p.is_bouncy then (1 : ℚ) else 0)
            + (1 - (if p.is_bouncy then (1 : ℚ) else 0)) * params.velocity_solve_fraction)
        + (1 - (if p.is_bouncy then (1 : ℚ) else 0))
          * params.velocity_based_erp_inv_dt * min p.dist 0 := by
  refine ⟨generate_push_eq basis params manifold_id m bodies out rb1 rb2 hd h1 h2, ?_⟩
  have hek : e = genElement params rb1 rb2 m.data.normal.neg
      (m.data.warmstart_multiplier * params.warmstart_coeff) basis p := by
    simp only [genConstraintChunk, List.get?_map, hp, Option.map_some] at he
    exact (Option.some.inj he).symm
  subst hek
  rfl

/-- Shared concrete fixture: the element `generate` builds for `sc0`. -/
def e0 : VelocityConstraintElement :=
  genElement params0 rbA rbB manifold0.data.normal.neg
    (manifold0.data.warmstart_multiplier * params0.warmstart_coeff) basis0 sc0

/-- Witness for C3 at the concrete one-contact manifold `manifold0`. -/
theorem generate_normal_rhs_witness :
    VelocityConstraint.generate basis0 params0 0 manifold0 bodies0 [] true
      = Except.ok ([] ++ (chunks4 manifold0.data.solver_contacts).map fun pts' =>
          AnyVelocityConstraint.Nongrouped
            (genConstraintChunk params0 0 rbA rbB manifold0.data.normal.neg
              (manifold0.data.warmstart_multiplier * params0.warmstart_coeff) basis0 pts')) ∧
    e0.normal_part.rhs
      = ((1 + (if sc0.is_bouncy then (1 : ℚ) else 0) * sc0.restitution)
            * ((rbA.linvel + rbA.angvel.cross (sc0.point - rbA.world_com))
                - (rbB.linvel + rbB.angvel.cross (sc0.point - rbB.world_com))).dot
              manifold0.data.normal.neg
          + max sc0.dist 0 * params0.inv_dt)
        * ((if sc0.is_bouncy then (1 : ℚ) else 0)
            + (1 - (if sc0.is_bouncy then (1 : ℚ) else 0)) * params0.velocity_solve_fraction)
        + (1 - (if sc0.is_bouncy then (1 : ℚ) else 0))
          * params0.velocity_based_erp_inv_dt * min sc0.dist 0 :=
  generate_normal_rhs basis0 params0 0 manifold0 bodies0 [] rbA rbB [sc0] 0 sc0 e0
    (by decide) (by decide) (by decide) (by decide) rfl rfl

/-- C5: `generate` seeds each element's normal impulse to the cached normal
impulse times the warm-start coefficient, and each tangent impulse to the
cached tangent impulse times the same coefficient, where the coefficient is
`manifold.data.warmstart_multiplier * params.warmstart_coeff`. -/
theorem generate_warmstart_seeds (basis : Vec3 → Vec3 × Vec3)
    (params : IntegrationParameters) (manifold_id : ℕ) (m : ContactManifold)
    (bodies : List RigidBody) (out : List AnyVelocityConstraint)
    (rb1 rb2 : RigidBody) (pts : List SolverContact) (k : ℕ)
    (p : SolverContact) (e : VelocityConstraintElement)
    (hd : m.data.relative_dominance = 0)
    (h1 : bodies[m.data.body_pair.body1]? = some rb1)
    (h2 : bodies[m.data.body_pair.body2]? = some rb2)
    (hc : pts ∈ chunks4 m.data.solver_contacts)
    (hp : pts.get? k = some p)
    (he : (genConstraintChunk params manifold_id rb1 rb2 m.data.normal.neg
        (m.data.warmstart_multiplier * params.warmstart_coeff) basis pts).elements.get? k
        = some e) :
    VelocityConstraint.generate basis params manifold_id m bodies out true
      = Except.ok (out ++ (chunks4 m.data.solver_contacts).map fun pts' =>
          AnyVelocityConstraint.Nongrouped
            (genConstraintChunk params manifold_id rb1 rb2 m.data.normal.neg
              (m.data.warmstart_multiplier * params.warmstart_coeff) basis pts')) ∧
    e.normal_part.impulse
      = p.data.impulse * (m.data.warmstart_multiplier * params.warmstart_coeff) ∧
    (e.tangentAt 0).impulse
      = p.data.tangent_impulse.1 * (m.data.warmstart_multiplier * params.warmstart_coeff) ∧
    (e.tangentAt 1).impulse
      = p.data.tangent_impulse.2 * (m.data.warmstart_multiplier * params.warmstart_coeff) := by
  refine ⟨generate_push_eq basis params manifold_id m bodies out rb1 rb2 hd h1 h2, ?_, ?_, ?_⟩ <;>
  · have hek : e = genElement params rb1 rb2 m.data.normal.neg
        (m.data.warmstart_multiplier * params.warmstart_coeff) basis p := by
      simp only [genConstraintChunk, List.get?_map, hp, Option.map_some] at he
      exact (Option.some.inj he).symm
    subst hek
    rfl

/-- Witness for C5 at the concrete one-contact manifold `manifold0`. -/
theorem generate_warmstart_seeds_witness :
    VelocityConstraint.generate basis0 params0 0 manifold0 bodies0 [] true
      = Except.ok ([] ++ (chunks4 manifold0.data.solver_contacts).map fun pts' =>
          AnyVelocityConstraint.Nongrouped
            (genConstraintChunk params0 0 rbA rbB manifold0.data.normal.neg
              (manifold0.data.warmstart_multiplier * params0.warmstart_coeff) basis0 pts')) ∧
    e0.normal_part.impulse
      = sc0.data.impulse * (manifold0.data.warmstart_multiplier * params0.warmstart_coeff) ∧
    (e0.tangentAt 0).impulse
      = sc0.data.tangent_impulse.1 * (manifold0.data.warmstart_multiplier * params0.warmstart_coeff) ∧
    (e0.tangentAt 1).impulse
      = sc0.data.tangent_impulse.2 * (manifold0.data.warmstart_multiplier * params0.warmstart_coeff) :=
  generate_warmstart_seeds basis0 params0 0 manifold0 bodies0 [] rbA rbB [sc0] 0 sc0 e0
    (by decide) (by decide) (by decide) (by decide) rfl rfl

/-- Helper: a fold that overwrites its accumulator with each contact's
friction ends at the friction of the last contact. -/
theorem foldl_friction_last (l : List SolverContact) (a : ℚ) (h : l ≠ []) :
    l.foldl (fun _ p => p.friction) a = (l.getLast h).friction := by
  induction l generalizing a with
  | nil => exact absurd rfl h
  | cons x t ih =>
    cases t with
    | nil => rfl
    | cons y u =>
      rw [List.foldl_cons, ih x.friction (by simp)]
      rfl

/-- C7: the constraint's single friction coefficient `limit` equals the
friction of the last contact of its batch (the field is overwritten once per
contact in iteration order, so when two contacts of one batch carry
different friction coefficients only the last is stored). -/
theorem generate_limit_last_contact (basis : Vec3 → Vec3 × Vec3)
    (params : IntegrationParameters) (manifold_id : ℕ) (m : ContactManifold)
    (bodies : List RigidBody) (out : List AnyVelocityConstraint)
    (rb1 rb2 : RigidBody) (pts : List SolverContact)
    (hd : m.data.relative_dominance = 0)
    (h1 : bodies[m.data.body_pair.body1]? = some rb1)
    (h2 : bodies[m.data.body_pair.body2]? = some rb2)
    (hc : pts ∈ chunks4 m.data.solver_contacts)
    (hne : pts ≠ []) :
    VelocityConstraint.generate basis params manifold_id m bodies out true
      = Except.ok (out ++ (chunks4 m.data.solver_contacts).map fun pts' =>
          AnyVelocityConstraint.Nongrouped
            (genConstraintChunk params manifold_id rb1 rb2 m.data.normal.neg
              (m.data.warmstart_multiplier * params.warmstart_coeff) basis pts')) ∧
    (genConstraintChunk params manifold_id rb1 rb2 m.data.normal.neg
        (m.data.warmstart_multiplier * params.warmstart_coeff) basis pts).limit
      = (pts.getLast hne).friction := by
  refine ⟨generate_push_eq basis params manifold_id m bodies out rb1 rb2 hd h1 h2, ?_⟩
  exact foldl_friction_last pts 0 hne

/-- Shared concrete fixture: a second solver contact with a different
friction coefficient (`2` against `sc0`'s `1`). -/
def sc1 : SolverContact := ⟨⟨2, 0, 0⟩, 0, 2, 0, Vec3.zero, false, 1, ⟨4, (5, 6)⟩⟩

/-- Shared concrete fixture: a manifold whose single batch carries two
contacts with different friction coefficients. -/
def manifold2 : ContactManifold :=
  { points := [⟨Vec3.zero, Vec3.zero, 0, ⟨0, (0, 0)⟩⟩, ⟨Vec3.zero, Vec3.zero, 0, ⟨0, (0, 0)⟩⟩]
    data := ⟨⟨0, 1⟩, ⟨1, 0, 0⟩, 0, [sc0, sc1], 1, 0⟩ }

/-- Witness for C7: with frictions `1` then `2` in one batch, the stored
`limit` is the last contact's `2`. -/
theorem generate_limit_last_contact_witness :
    VelocityConstraint.generate basis0 params0 0 manifold2 bodies0 [] true
      = Except.ok ([] ++ (chunks4 manifold2.data.solver_contacts).map fun pts' =>
          AnyVelocityConstraint.Nongrouped
            (genConstraintChunk params0 0 rbA rbB manifold2.data.normal.neg
              (manifold2.data.warmstart_multiplier * params0.warmstart_coeff) basis0 pts')) ∧
    (genConstraintChunk params0 0 rbA rbB manifold2.data.normal.neg
        (manifold2.data.warmstart_multiplier * params0.warmstart_coeff) basis0 [sc0, sc1]).limit
      = ([sc0, sc1].getLast (by decide)).friction :=
  generate_limit_last_contact basis0 params0 0 manifold2 bodies0 [] rbA rbB [sc0, sc1]
    (by decide) (by decide) (by decide) (by decide) (by decide)

/-- Helper: `num_active_constraints` is the ceiling `⌈n / 4⌉`. -/
theorem num_active_eq_ceil (m : ContactManifold) :
    VelocityConstraint.num_active_constraints m
      = (m.data.solver_contacts.length + 3) / 4 := by
  simp only [VelocityConstraint.num_active_constraints, MAX_MANIFOLD_POINTS]
  by_cases hmod : m.data.solver_contacts.length % 4 = 0 <;> simp [hmod] <;> omega

/-- Helper: `chunks4` produces `⌈n / 4⌉` chunks. -/
theorem chunks4_length {α : Type} (l : List α) :
    (chunks4 l).length = (l.length + 3) / 4 := by
  induction l using chunks4.induct with
  | case1 => simp [chunks4]
  | case2 a => simp [chunks4]
  | case3 a b => simp [chunks4]
  | case4 a b c => simp [chunks4]
  | case5 a b c d rest ih =>
    simp only [chunks4, List.length_cons, ih]
    omega

/-- Helper: every chunk of `chunks4` is non-empty and holds at most four
entries. -/
theorem chunks4_mem_length {α : Type} {l ch : List α} (hc : ch ∈ chunks4 l) :
    0 < ch.length ∧ ch.length ≤ 4 := by
  induction l using chunks4.induct with
  | case1 => simp [chunks4] at hc
  | case2 a =>
    simp only [chunks4, List.mem_singleton] at hc
    subst hc
    simp
  | case3 a b =>
    simp only [chunks4, List.mem_singleton] at hc
    subst hc
    simp
  | case4 a b c =>
    simp only [chunks4, List.mem_singleton] at hc
    subst hc
    simp
  | case5 a b c d rest ih =>
    rcases List.mem_cons.mp hc with h | h
    · subst h
      simp
    · exact ih h

/-- C8: on the `push = true` path `generate` appends exactly
`⌈n / MAX_MANIFOLD_POINTS⌉` constraints for `n` solver contacts (none for an
empty manifold), each appended constraint is `Nongrouped` with at most
`MAX_MANIFOLD_POINTS` contacts, and `num_active_constraints` returns the
same count. -/
theorem generate_constraint_count (basis : Vec3 → Vec3 × Vec3)
    (params : IntegrationParameters) (manifold_id : ℕ) (m : ContactManifold)
    (bodies : List RigidBody) (out : List AnyVelocityConstraint)
    (rb1 rb2 : RigidBody)
    (hd : m.data.relative_dominance = 0)
    (h1 : bodies[m.data.body_pair.body1]? = some rb1)
    (h2 : bodies[m.data.body_pair.body2]? = some rb2) :
    ∃ res, VelocityConstraint.generate basis params manifold_id m bodies out true
        = Except.ok res ∧
      VelocityConstraint.num_active_constraints m
        = (m.data.solver_contacts.length + (MAX_MANIFOLD_POINTS - 1)) / MAX_MANIFOLD_POINTS ∧
      res.length = out.length + VelocityConstraint.num_active_constraints m ∧
      (m.data.solver_contacts = [] → res = out) ∧
      (∀ a ∈ res.drop out.length, ∃ v, a = AnyVelocityConstraint.Nongrouped v ∧
        v.num_contacts ≤ MAX_MANIFOLD_POINTS) := by
  refine ⟨_, generate_push_eq basis params manifold_id m bodies out rb1 rb2 hd h1 h2,
    num_active_eq_ceil m, ?_, ?_, ?_⟩
  · simp [num_active_eq_ceil, chunks4_length]
  · intro h
    simp [h, chunks4]
  · intro a ha
    rw [List.drop_left] at ha
    rcases List.mem_map.mp ha with ⟨pts, hpts, rfl⟩
    refine ⟨_, rfl, ?_⟩
    have hl := (chunks4_mem_length hpts).2
    simpa [VelocityConstraint.num_contacts, genConstraintChunk, MAX_MANIFOLD_POINTS] using hl

/-- Shared concrete fixture: a manifold with five solver contacts, so its
contacts split into two batches (four plus one). -/
def manifold5 : ContactManifold :=
  { points := [⟨Vec3.zero, Vec3.zero, 0, ⟨0, (0, 0)⟩⟩]
    data := ⟨⟨0, 1⟩, ⟨1, 0, 0⟩, 0, [sc0, sc1, sc0, sc1, sc0], 1, 0⟩ }

/-- Witness for C8 at a five-contact manifold: two constraints appended. -/
theorem generate_constraint_count_witness :
    ∃ res, VelocityConstraint.generate basis0 params0 0 manifold5 bodies0 [] true
        = Except.ok res ∧
      VelocityConstraint.num_active_constraints manifold5
        = (manifold5.data.solver_contacts.length + (MAX_MANIFOLD_POINTS - 1)) / MAX_MANIFOLD_POINTS ∧
      res.length = ([] : List AnyVelocityConstraint).length
        + VelocityConstraint.num_active_constraints manifold5 ∧
      (manifold5.data.solver_contacts = [] → res = []) ∧
      (∀ a ∈ res.drop ([] : List AnyVelocityConstraint).length,
        ∃ v, a = AnyVelocityConstraint.Nongrouped v ∧
          v.num_contacts ≤ MAX_MANIFOLD_POINTS) :=
  generate_constraint_count basis0 params0 0 manifold5 bodies0 [] rbA rbB
    (by decide) (by decide) (by decide)

theorem writeAt_isSome (out : List AnyVelocityConstraint) (i : ℕ)
    (cs : List AnyVelocityConstraint) (h : i + cs.length ≤ out.length) :
    ∃ res, writeAt out i cs = some res := by
  induction cs generalizing out i with
  | nil => exact ⟨out, rfl⟩
  | cons c rest ih =>
    have hi : i < out.length := by
      simp only [List.length_cons] at h
      omega
    obtain ⟨res, hres⟩ := ih (out.set i c) (i + 1)
      (by simp only [List.length_set]; simp only [List.length_cons] at h; omega)
    exact ⟨res, by rw [writeAt, if_pos hi, hres]⟩

/-- A successful `writeAt` keeps the storage length, overwrites exactly the
slots `i, i + 1, ...` with the given constraints, and leaves every other
slot unchanged. -/
theorem writeAt_get? (out : List AnyVelocityConstraint) (i : ℕ)
    (cs : List AnyVelocityConstraint) (res : List AnyVelocityConstraint)
    (h : writeAt out i cs = some res) :
    res.length = out.length ∧
    (∀ j, j < i ∨ i + cs.length ≤ j → res.get? j = out.get? j) ∧
    (∀ l, l < cs.length → res.get? (i + l) = cs.get? l) := by
  induction cs generalizing out i res with
  | nil =>
    obtain rfl : out = res := Option.some.inj h
    exact ⟨rfl, fun j _ => rfl, fun l hl => absurd hl (by simp)⟩
  | cons c rest ih =>
    rw [writeAt] at h
    by_cases hi : i < out.length
    · rw [if_pos hi] at h
      obtain ⟨hlen, huntouched, hwritten⟩ := ih (out.set i c) (i + 1) res h
      refine ⟨by rw [hlen, List.length_set], ?_, ?_⟩
      · intro j hj
        have hne : i ≠ j := by
          rcases hj with hj | hj
          · omega
          · simp only [List.length_cons] at hj
            omega
        have hj2 : j < i + 1 ∨ (i + 1) + rest.length ≤ j := by
          rcases hj with hj | hj
          · exact Or.inl (by omega)
          · simp only [List.length_cons] at hj
            exact Or.inr (by omega)
        rw [huntouched j hj2, List.get?_set_ne c out hne]
      · intro l hl
        cases l with
        | zero =>
          rw [Nat.add_zero, huntouched i (Or.inl (by omega)),
            List.get?_set_eq_of_lt c hi]
          rfl
        | succ n =>
          have hn := hwritten n (by simpa using hl)
          rw [show i + (n + 1) = (i + 1) + n by omega, hn]
          rfl
    · rw [if_neg hi] at h
      exact Option.noConfusion h

/-- C9: `VelocityConstraint::generate` hits its `assert_eq!` (modelled as the
`dominanceAssertion` error) exactly on manifolds with non-zero
`relative_dominance`: with zero relative dominance the assertion never fires
(whatever else happens), and generation completes whenever the inputs do not
trip the two indexing panics — the body lookups succeed and, on the
`push = false` arm, the storage is pre-sized for the writes at
`constraint_index`, `constraint_index + 1`, .... -/
theorem generate_dominance_assertion (basis : Vec3 → Vec3 × Vec3)
    (params : IntegrationParameters) (manifold_id : ℕ)
    (manifold : ContactManifold) (bodies : List RigidBody)
    (out : List AnyVelocityConstraint) (push : Bool) :
    (manifold.data.relative_dominance ≠ 0 →
      VelocityConstraint.generate basis params manifold_id manifold bodies out push
        = Except.error GenerateError.dominanceAssertion) ∧
    (manifold.data.relative_dominance = 0 →
      VelocityConstraint.generate basis params manifold_id manifold bodies out push
        ≠ Except.error GenerateError.dominanceAssertion) ∧
    (manifold.data.relative_dominance = 0 →
      ∀ rb1 rb2 : RigidBody,
        bodies[manifold.data.body_pair.body1]? = some rb1 →
        bodies[manifold.data.body_pair.body2]? = some rb2 →
        (push = false → manifold.data.constraint_index
            + VelocityConstraint.num_active_constraints manifold ≤ out.length) →
        ∃ res, VelocityConstraint.generate basis params manifold_id manifold bodies out push
          = Except.ok res) := by
  refine ⟨?_, ?_, ?_⟩
  · intro h
    simp [VelocityConstraint.generate, h]
  · intro h heq
    unfold VelocityConstraint.generate at heq
    rw [if_pos h] at heq
    split at heq
    · split at heq
      · exact Except.noConfusion heq
      · dsimp only at heq
        split at heq
        · exact Except.noConfusion heq
        · injection heq with heq2
          exact GenerateError.noConfusion heq2
    · injection heq with heq2
      exact GenerateError.noConfusion heq2
  · intro h rb1 rb2 h1 h2 hw
    cases push with
    | true =>
      exact ⟨_, generate_push_eq basis params manifold_id manifold bodies out rb1 rb2 h h1 h2⟩
    | false =>
      obtain ⟨res, hres⟩ := writeAt_isSome out manifold.data.constraint_index
        ((chunks4 manifold.data.solver_contacts).map fun pts =>
          AnyVelocityConstraint.Nongrouped
            (genConstraintChunk params manifold_id rb1 rb2 manifold.data.normal.neg
              (manifold.data.warmstart_multiplier * params.warmstart_coeff) basis pts))
        (by
          have hb := hw rfl
          rw [num_active_eq_ceil] at hb
          simpa [List.length_map, chunks4_length] using hb)
      refine ⟨res, ?_⟩
      simp [VelocityConstraint.generate, h, h1, h2, hres]

/-- Witness for C9: at a concrete manifold with `relative_dominance = 1`,
generation aborts with the dominance assertion; with zero dominance the
assertion does not fire, and generation completes on both the `push = true`
arm and the pre-sized `push = false` arm. -/
theorem generate_dominance_assertion_witness :
    (VelocityConstraint.generate basis0 params0 0 manifoldDom bodies0 [] true
      = Except.error GenerateError.dominanceAssertion) ∧
    (VelocityConstraint.generate basis0 params0 0 manifold0 bodies0 [] true
      ≠ Except.error GenerateError.dominanceAssertion) ∧
    (∃ res, VelocityConstraint.generate basis0 params0 0 manifold0 bodies0 [] true
      = Except.ok res) ∧
    (∃ res, VelocityConstraint.generate basis0 params0 0 manifold0 bodies0
        [AnyVelocityConstraint.Empty] false = Except.ok res) :=
  ⟨(generate_dominance_assertion basis0 params0 0 manifoldDom bodies0 [] true).1 (by decide),
   (generate_dominance_assertion basis0 params0 0 manifold0 bodies0 [] true).2.1 (by decide),
   (generate_dominance_assertion basis0 params0 0 manifold0 bodies0 [] true).2.2 (by decide)
     rbA rbB (by decide) (by decide) (fun hf => Bool.noConfusion hf),
   (generate_dominance_assertion basis0 params0 0 manifold0 bodies0
       [AnyVelocityConstraint.Empty] false).2.2 (by decide)
     rbA rbB (by decide) (by decide) (fun _ => by decide)⟩

/-- C10: every value `generate` stores in the output vector on the scalar
non-wasm path — appended on `push = true`, or written over the pre-sized
placeholders at `constraint_index + l` on `push = false` — is the
`Nongrouped` variant, so `AnyVelocityConstraint::warmstart`, `solve` and
`writeback_impulses` on a constraint produced by `generate` never reach the
`Empty` branch marked `unreachable!()` (modelled as `none`). -/
theorem generate_nongrouped_never_empty (basis : Vec3 → Vec3 × Vec3)
    (params : IntegrationParameters) (manifold_id : ℕ) (m : ContactManifold)
    (bodies : List RigidBody) (out : List AnyVelocityConstraint)
    (rb1 rb2 : RigidBody) (push : Bool)
    (hd : m.data.relative_dominance = 0)
    (h1 : bodies[m.data.body_pair.body1]? = some rb1)
    (h2 : bodies[m.data.body_pair.body2]? = some rb2)
    (hw : push = false → m.data.constraint_index
        + VelocityConstraint.num_active_constraints m ≤ out.length) :
    ∃ news : List VelocityConstraint, ∃ res,
      VelocityConstraint.generate basis params manifold_id m bodies out push
        = Except.ok res ∧
      (push = true → res = out ++ news.map AnyVelocityConstraint.Nongrouped) ∧
      (push = false →
        writeAt out m.data.constraint_index (news.map AnyVelocityConstraint.Nongrouped)
          = some res ∧
        ∀ l, l < news.length →
          res.get? (m.data.constraint_index + l)
            = (news.map AnyVelocityConstraint.Nongrouped).get? l) ∧
      ∀ a ∈ news.map AnyVelocityConstraint.Nongrouped,
        (∃ v, a = AnyVelocityConstraint.Nongrouped v) ∧
        (∀ basis2 mjl, (AnyVelocityConstraint.warmstart basis2 a mjl).isSome) ∧
        (∀ basis2 mjl, (AnyVelocityConstraint.solve basis2 a mjl).isSome) ∧
        (∀ ms, (AnyVelocityConstraint.writeback_impulses a ms).isSome) := by
  set news := (chunks4 m.data.solver_contacts).map (genConstraintChunk params manifold_id rb1 rb2
    m.data.normal.neg (m.data.warmstart_multiplier * params.warmstart_coeff) basis) with hnews
  have hmm : news.map AnyVelocityConstraint.Nongrouped
      = (chunks4 m.data.solver_contacts).map fun pts =>
          AnyVelocityConstraint.Nongrouped
            (genConstraintChunk params manifold_id rb1 rb2 m.data.normal.neg
              (m.data.warmstart_multiplier * params.warmstart_coeff) basis pts) := by
    rw [hnews, List.map_map]
    rfl
  have hmem : ∀ a ∈ news.map AnyVelocityConstraint.Nongrouped,
      (∃ v, a = AnyVelocityConstraint.Nongrouped v) ∧
      (∀ basis2 mjl, (AnyVelocityConstraint.warmstart basis2 a mjl).isSome) ∧
      (∀ basis2 mjl, (AnyVelocityConstraint.solve basis2 a mjl).isSome) ∧
      (∀ ms, (AnyVelocityConstraint.writeback_impulses a ms).isSome) := by
    intro a ha
    rcases List.mem_map.mp ha with ⟨v, hv, rfl⟩
    exact ⟨⟨v, rfl⟩, fun _ _ => rfl, fun _ _ => rfl, fun _ => rfl⟩
  refine ⟨news, ?_⟩
  cases push with
  | true =>
    refine ⟨out ++ news.map AnyVelocityConstraint.Nongrouped, ?_, fun _ => rfl,
      fun hf => Bool.noConfusion hf, hmem⟩
    rw [generate_push_eq basis params manifold_id m bodies out rb1 rb2 hd h1 h2, hmm]
  | false =>
    have hbound : m.data.constraint_index
        + (news.map AnyVelocityConstraint.Nongrouped).length ≤ out.length := by
      have hb := hw rfl
      rw [num_active_eq_ceil] at hb
      simpa [hnews, List.length_map, chunks4_length] using hb
    obtain ⟨res, hres⟩ := writeAt_isSome out m.data.constraint_index _ hbound
    obtain ⟨hlen2, hunt, hwr⟩ := writeAt_get? out m.data.constraint_index _ res hres
    refine ⟨res, ?_, fun ht => Bool.noConfusion ht,
      fun _ => ⟨hres, fun l hl => hwr l (by simpa using hl)⟩, hmem⟩
    have hgen : VelocityConstraint.generate basis params manifold_id m bodies out false
        = match writeAt out m.data.constraint_index
            (news.map AnyVelocityConstraint.Nongrouped) with
          | some r => Except.ok r
          | none => Except.error GenerateError.constraintIndexOutOfRange := by
      rw [hmm]
      simp [VelocityConstraint.generate, hd, h1, h2]
    rw [hgen, hres]

/-- Witness for C10 on the pre-sized `push = false` path: an `Empty`
placeholder slot of the output vector gets overwritten by a `Nongrouped`
constraint. -/
theorem generate_nongrouped_never_empty_witness :
    ∃ news : List VelocityConstraint, ∃ res,
      VelocityConstraint.generate basis0 params0 0 manifold0 bodies0
          [AnyVelocityConstraint.Empty] false
        = Except.ok res ∧
      (false = true → res = [AnyVelocityConstraint.Empty]
          ++ news.map AnyVelocityConstraint.Nongrouped) ∧
      (false = false →
        writeAt [AnyVelocityConstraint.Empty] manifold0.data.constraint_index
            (news.map AnyVelocityConstraint.Nongrouped) = some res ∧
        ∀ l, l < news.length →
          res.get? (manifold0.data.constraint_index + l)
            = (news.map AnyVelocityConstraint.Nongrouped).get? l) ∧
      ∀ a ∈ news.map AnyVelocityConstraint.Nongrouped,
        (∃ v, a = AnyVelocityConstraint.Nongrouped v) ∧
        (∀ basis2 mjl, (AnyVelocityConstraint.warmstart basis2 a mjl).isSome) ∧
        (∀ basis2 mjl, (AnyVelocityConstraint.solve basis2 a mjl).isSome) ∧
        (∀ ms, (AnyVelocityConstraint.writeback_impulses a ms).isSome) :=
  generate_nongrouped_never_empty basis0 params0 0 manifold0 bodies0
    [AnyVelocityConstraint.Empty] rbA rbB false
    (by decide) (by decide) (by decide) (fun _ => by decide)

theorem listModify_length {α : Type} (l : List α) (i : ℕ) (f : α → α) :
    (listModify l i f).length = l.length := by
  induction l generalizing i with
  | nil => rfl
  | cons a t ih =>
    cases i with
    | zero => rfl
    | succ n => simp [listModify, ih]

theorem listModify_get?_self {α : Type} (l : List α) (i : ℕ) (f : α → α) :
    (listModify l i f).get? i = (l.get? i).map f := by
  induction l generalizing i with
  | nil => rfl
  | cons a t ih =>
    cases i with
    | zero => rfl
    | succ n => simpa [listModify] using ih n

theorem listModify_get?_ne {α : Type} (l : List α) (i j : ℕ) (f : α → α)
    (h : j ≠ i) : (listModify l i f).get? j = l.get? j := by
  induction l generalizing i j with
  | nil => rfl
  | cons a t ih =>
    cases i with
    | zero =>
      cases j with
      | zero => exact absurd rfl h
      | succ n => rfl
    | succ n =>
      cases j with
      | zero => rfl
      | succ k => simpa [listModify] using ih n k (fun hk => h (by omega))

theorem writebackLoop_length (ps : List (ℕ × VelocityConstraintElement))
    (pts : List ContactPoint) : (writebackLoop ps pts).length = pts.length := by
  induction ps generalizing pts with
  | nil => rfl
  | cons pr rest ih =>
    obtain ⟨cid, e⟩ := pr
    rw [writebackLoop, ih, listModify_length]

theorem writebackLoop_get?_not_mem (ps : List (ℕ × VelocityConstraintElement))
    (pts : List ContactPoint) (idx : ℕ) (h : idx ∉ ps.map Prod.fst) :
    (writebackLoop ps pts).get? idx = pts.get? idx := by
  induction ps generalizing pts with
  | nil => rfl
  | cons pr rest ih =>
    obtain ⟨cid, e⟩ := pr
    simp only [List.map_cons, List.mem_cons, not_or] at h
    rw [writebackLoop, ih _ h.2, listModify_get?_ne _ _ _ _ h.1]

theorem writebackLoop_get?_mem (ps : List (ℕ × VelocityConstraintElement))
    (pts : List ContactPoint) (hnd : (ps.map Prod.fst).Nodup)
    (cid : ℕ) (e : VelocityConstraintElement) (hpr : (cid, e) ∈ ps) :
    (writebackLoop ps pts).get? cid = (pts.get? cid).map (applyImpulse e) := by
  induction ps generalizing pts with
  | nil => simp at hpr
  | cons q rest ih =>
    obtain ⟨cid2, e2⟩ := q
    simp only [List.map_cons, List.nodup_cons] at hnd
    rcases List.mem_cons.mp hpr with h | h
    · have heq1 : cid = cid2 := congrArg Prod.fst h
      have heq2 : e = e2 := congrArg Prod.snd h
      subst heq1
      subst heq2
      rw [writebackLoop, writebackLoop_get?_not_mem _ _ _ hnd.1, listModify_get?_self]
    · have hfst : cid ∈ rest.map Prod.fst := List.mem_map_of_mem Prod.fst h
      have hne : cid ≠ cid2 := fun heq => hnd.1 (heq ▸ hfst)
      rw [writebackLoop, ih _ hnd.2 h, listModify_get?_ne _ _ _ _ hne]

theorem zip_get?_mem {α β : Type} (l1 : List α) (l2 : List β) (k : ℕ) (a : α)
    (b : β) (h1 : l1.get? k = some a) (h2 : l2.get? k = some b) :
    (a, b) ∈ l1.zip l2 := by
  induction l1 generalizing l2 k with
  | nil => simp at h1
  | cons x t ih =>
    cases l2 with
    | nil => simp at h2
    | cons y u =>
      cases k with
      | zero =>
        obtain rfl : x = a := Option.some.inj h1
        obtain rfl : y = b := Option.some.inj h2
        simp [List.zip_cons_cons]
      | succ n =>
        have hmem := ih u n (by simpa using h1) (by simpa using h2)
        simp only [List.zip_cons_cons]
        exact List.mem_cons_of_mem _ hmem

theorem listedIds_length (c : VelocityConstraint) :
    c.listedIds.length = c.num_contacts := by
  simp [VelocityConstraint.listedIds]

theorem listedIds_get? (c : VelocityConstraint) (k : ℕ) (hk : k < c.num_contacts) :
    c.listedIds.get? k = some (c.manifold_contact_id.getD k 0) := by
  rw [VelocityConstraint.listedIds, List.get?_map, List.get?_range hk]
  rfl

theorem get?_eq_getD {α : Type} (l : List α) (k : ℕ) (d : α) (hk : k < l.length) :
    l.get? k = some (l.getD k d) := by
  rw [List.getD_eq_getElem l d hk, List.get?_eq_getElem?, List.getElem?_eq_getElem hk]

/-- C6: `writeback_impulses` stores, for each `k < num_contacts`, the final
normal impulse into `manifold.points[manifold_contact_id[k]].data.impulse`
and the tangent impulses into the same point's `data.tangent_impulse`; it
mutates no other field of that point, no point whose index is not listed,
and no other manifold (the listed ids are assumed pairwise distinct, the
spec's stable-index invariant). -/
theorem writeback_impulses_spec (c : VelocityConstraint)
    (manifolds : List ContactManifold) (m : ContactManifold)
    (hm : manifolds.get? c.manifold_id = some m)
    (hnd : c.listedIds.Nodup) :
    (c.writeback_impulses manifolds).length = manifolds.length ∧
    (∀ j, j ≠ c.manifold_id →
      (c.writeback_impulses manifolds).get? j = manifolds.get? j) ∧
    ∃ m', (c.writeback_impulses manifolds).get? c.manifold_id = some m' ∧
      m'.data = m.data ∧
      m'.points.length = m.points.length ∧
      (∀ idx, idx ∉ c.listedIds → m'.points.get? idx = m.points.get? idx) ∧
      (∀ k, k < c.num_contacts →
        ∀ p, m.points.get? (c.manifold_contact_id.getD k 0) = some p →
          m'.points.get? (c.manifold_contact_id.getD k 0)
            = some { p with data :=
                ⟨(c.elements.getD k VelocityConstraintElement.zero).normal_part.impulse,
                 (((c.elements.getD k VelocityConstraintElement.zero).tangentAt 0).impulse,
                  ((c.elements.getD k VelocityConstraintElement.zero).tangentAt 1).impulse)⟩ }) := by
  have hfst : (c.listedIds.zip c.elements).map Prod.fst = c.listedIds :=
    List.map_fst_zip _ _ (le_of_eq (listedIds_length c))
  refine ⟨listModify_length _ _ _, fun j hj => listModify_get?_ne _ _ _ _ hj,
    { m with points := writebackLoop (c.listedIds.zip c.elements) m.points },
    ?_, rfl, writebackLoop_length _ _, ?_, ?_⟩
  · rw [VelocityConstraint.writeback_impulses, listModify_get?_self, hm]
    rfl
  · intro idx hidx
    exact writebackLoop_get?_not_mem _ _ idx (by rw [hfst]; exact hidx)
  · intro k hk p hp
    have h1 : c.listedIds.get? k = some (c.manifold_contact_id.getD k 0) :=
      listedIds_get? c k hk
    have h2 : c.elements.get? k
        = some (c.elements.getD k VelocityConstraintElement.zero) :=
      get?_eq_getD _ _ _ hk
    have hmem := zip_get?_mem _ _ k _ _ h1 h2
    have hloop := writebackLoop_get?_mem (c.listedIds.zip c.elements) m.points
      (by rw [hfst]; exact hnd) _ _ hmem
    show (writebackLoop (c.listedIds.zip c.elements) m.points).get? _ = _
    rw [hloop, hp]
    rfl

/-- Shared concrete fixture: a constraint whose single contact writes its
impulses back to point `1` of manifold `0`. -/
def wbcon : VelocityConstraint :=
  { dir1 := ⟨0, 0, 1⟩, im1 := 1, im2 := 1, limit := 1, mj_lambda1 := 0, mj_lambda2 := 1,
    manifold_id := 0, manifold_contact_id := [1],
    elements := [⟨⟨⟨0, 1, 0⟩, ⟨1, 0, 0⟩, 3, 7, 1⟩,
      (⟨⟨0, 0, 1⟩, Vec3.zero, 0, 5, 1⟩, ⟨Vec3.zero, Vec3.zero, 0, 6, 1⟩)⟩] }

/-- Shared concrete fixture: a manifold with two points for writeback. -/
def wbmanifold : ContactManifold :=
  { points := [⟨⟨1, 0, 0⟩, ⟨2, 0, 0⟩, 0, ⟨9, (8, 7)⟩⟩, ⟨⟨3, 0, 0⟩, ⟨4, 0, 0⟩, 0, ⟨1, (2, 3)⟩⟩]
    data := ⟨⟨0, 1⟩, ⟨1, 0, 0⟩, 0, [], 1, 0⟩ }

/-- Witness for C6: writing back the single contact of `wbcon` into the
two-point manifold `wbmanifold`. -/
theorem writeback_impulses_spec_witness :
    (wbcon.writeback_impulses [wbmanifold]).length = [wbmanifold].length ∧
    (∀ j, j ≠ wbcon.manifold_id →
      (wbcon.writeback_impulses [wbmanifold]).get? j = [wbmanifold].get? j) ∧
    ∃ m', (wbcon.writeback_impulses [wbmanifold]).get? wbcon.manifold_id = some m' ∧
      m'.data = wbmanifold.data ∧
      m'.points.length = wbmanifold.points.length ∧
      (∀ idx, idx ∉ wbcon.listedIds → m'.points.get? idx = wbmanifold.points.get? idx) ∧
      (∀ k, k < wbcon.num_contacts →
        ∀ p, wbmanifold.points.get? (wbcon.manifold_contact_id.getD k 0) = some p →
          m'.points.get? (wbcon.manifold_contact_id.getD k 0)
            = some { p with data :=
                ⟨(wbcon.elements.getD k VelocityConstraintElement.zero).normal_part.impulse,
                 (((wbcon.elements.getD k VelocityConstraintElement.zero).tangentAt 0).impulse,
                  ((wbcon.elements.getD k VelocityConstraintElement.zero).tangentAt 1).impulse)⟩ }) :=
  writeback_impulses_spec wbcon [wbmanifold] wbmanifold rfl (by decide)
